import Mathlib

/-!
# Authorization response delivery (fosite): a shallow embedding

The development embeds `authorize_write.go`, `authorize_error.go`,
`token/jarm/generate.go` and `token/jwt/claims_jarm.go`.

* Go maps are association lists with unique keys (`AList`); the order of the
  entries stands for the (unspecified) iteration order of `range`, so a
  statement quantified over every map also covers every iteration order.
* The `http.ResponseWriter` is a record of the header map together with the
  log of every operation performed on it; transport operations remember the
  header map they were issued with.
* Collaborators whose code is outside the embedded files (`net/url`,
  `encoding/json`, the error formatter, the form writer, the extension
  handler, the signer, the clock and the uuid source) are parameters.
-/

namespace FositeDelivery

/-! ## Go maps -/

/-- A Go `map[string]V`: unique keys, entry order = iteration order. -/
abbrev GoMap (V : Type) := AList (fun _ : String => V)

/-! ## net/http headers -/

/-- The bytes accepted in a header field name (`httpguts` token table). -/
def validHeaderFieldByte (c : Char) : Bool :=
  c.isAlphanum ||
    [ '!', '#', '$', '%', '&', Char.ofNat 39, '*', '+', '-', '.', '^', '_',
      Char.ofNat 96, '|', '~' ].contains c

/-- The canonicalisation loop of `textproto.canonicalMIMEHeaderKey`: upper-case
the first letter and every letter after a dash, lower-case the others. -/
def canonicalLoop : Bool → List Char → List Char
  | _, [] => []
  | upper, c :: cs =>
    let c1 :=
      if upper && c.isLower then c.toUpper
      else if !upper && c.isUpper then c.toLower
      else c
    c1 :: canonicalLoop (c1 == '-') cs

/-- The function `textproto.CanonicalMIMEHeaderKey`: a key holding a space or
an invalid byte is returned unchanged. -/
def CanonicalMIMEHeaderKey (s : String) : String :=
  if s.data.all validHeaderFieldByte then String.mk (canonicalLoop true s.data) else s

/-- The type `http.Header`. -/
abbrev Header := GoMap (List String)

namespace Header

/-- The raw map read `h[key]` (no canonicalisation). -/
def values (h : Header) (key : String) : List String :=
  (h.lookup key).getD []

/-- The method `http.Header.Get`. -/
def Get (h : Header) (key : String) : String :=
  (h.values (CanonicalMIMEHeaderKey key)).headD ""

/-- The method `http.Header.Set`. -/
def Set (h : Header) (key value : String) : Header :=
  h.insert (CanonicalMIMEHeaderKey key) [value]

/-- The method `http.Header.Add`. -/
def Add (h : Header) (key value : String) : Header :=
  h.insert (CanonicalMIMEHeaderKey key) (h.values (CanonicalMIMEHeaderKey key) ++ [value])

/-- The method `http.Header.Del`. -/
def Del (h : Header) (key : String) : Header :=
  h.erase (CanonicalMIMEHeaderKey key)

end Header

/-! ## net/url -/

/-- The type `url.Values`. -/
abbrev Values := GoMap (List String)

namespace Values

/-- The method `url.Values.Get`: the first value of the key, or the empty
string. -/
def Get (v : Values) (key : String) : String :=
  ((v.lookup key).getD []).headD ""

/-- The method `url.Values.Set`. -/
def Set (v : Values) (key value : String) : Values :=
  v.insert key [value]

/-- The key/value pairs of a list of entries: one pair for each value. -/
def entryPairs (l : List (Σ _ : String, List String)) : List (String × String) :=
  l.flatMap fun e => e.2.map fun x => (e.1, x)

/-- The key/value pairs a `url.Values` stands for. -/
def pairs (v : Values) : List (String × String) :=
  entryPairs v.entries

end Values

/-- A `url.URL`. `head` is what `String` renders before the query (scheme,
authority and path); the query and the fragment are kept as the fields the
code reads and writes. -/
structure URL where
  head : String
  ForceQuery : Bool
  RawQuery : String
  Fragment : String
  RawFragment : String
  deriving DecidableEq

/-- The functions of `net/url` the code calls. -/
structure NetURL where
  /-- The function behind `(*URL).Query`: parse a raw query, dropping malformed pairs. -/
  parseQuery : String → Values
  /-- The method `url.Values.Encode`. -/
  encode : Values → String
  /-- The method `(*URL).EscapedFragment`, from `Fragment` and `RawFragment`. -/
  escapedFragment : String → String → String

/-- The method `(*URL).Query`. -/
def URL.Query (nu : NetURL) (u : URL) : Values :=
  nu.parseQuery u.RawQuery

/-- The method `(*URL).String`: the query is written when forced or non-empty,
the fragment only when `Fragment` is non-empty. -/
def URL.String (nu : NetURL) (u : URL) : String :=
  u.head
    ++ (if u.ForceQuery || u.RawQuery != "" then "?" ++ u.RawQuery else "")
    ++ (if u.Fragment != "" then "#" ++ nu.escapedFragment u.Fragment u.RawFragment else "")

/-! ## Errors -/

/-- The structured error `RFC6749Error`: the fields the embedded code and the
specification name (`cause` keeps the text of a wrapped error). -/
structure RFC6749Error where
  ErrorField : String
  DescriptionField : String
  HintField : String
  CodeField : Nat
  DebugField : String
  cause : Option String
  deriving DecidableEq

/-- A Go `error` value: either one that carries an `RFC6749Error` (what
`errors.As` finds) or any other error, known by its message. -/
inductive GoError where
  | rfc (e : RFC6749Error)
  | plain (msg : String)
  deriving DecidableEq

/-- The parts of the error formatter that live outside the embedded files. -/
structure ErrorKit where
  /-- What `ErrorToRFC6749Error` makes of an error that carries no `RFC6749Error`. -/
  unrecognized : String → RFC6749Error
  /-- The method `RFC6749Error.Error`. -/
  rfcErrorString : RFC6749Error → String
  /-- The chain `WithLegacyFormat(legacy).WithExposeDebug(debug).WithLocalizer(..)`. -/
  withPolicy : Bool → Bool → String → RFC6749Error → RFC6749Error
  /-- The method `RFC6749Error.ToValues`. -/
  toValues : RFC6749Error → Values
  /-- The description and hint texts of `ErrServerError`. -/
  serverErrorDescription : String
  serverErrorHint : String
  /-- The call `json.Marshal(rfcerr)`: the rendering, or the marshalling error. -/
  jsonMarshal : RFC6749Error → Except String String
  /-- The helper `EscapeJSONString`. -/
  escapeJSONString : String → String

/-- Modelled from the spec: `ErrorToRFC6749Error` is not among the embedded
files. An error that is an RFC6749 error keeps its identifier and status
(section 4.2); any other error is handed to the `unrecognized` parameter. -/
def ErrorToRFC6749Error (ek : ErrorKit) : GoError → RFC6749Error
  | .rfc e => e
  | .plain msg => ek.unrecognized msg

/-- The method `error.Error`. -/
def GoError.Error (ek : ErrorKit) : GoError → String
  | .rfc e => ek.rfcErrorString e
  | .plain msg => msg

/-- Modelled from the spec: `ErrServerError` is not among the embedded files.
Its identifier is `server_error` and its status 500 (sections 6 and 7). -/
def ErrServerError (ek : ErrorKit) : RFC6749Error :=
  { ErrorField := "server_error"
    DescriptionField := ek.serverErrorDescription
    HintField := ek.serverErrorHint
    CodeField := 500
    DebugField := ""
    cause := none }

/-- Modelled from the spec: `RFC6749Error.WithWrap` records the cause and
leaves identifier and status alone. -/
def RFC6749Error.WithWrap (ek : ErrorKit) (e : RFC6749Error) (err : GoError) : RFC6749Error :=
  { e with cause := some (err.Error ek) }

/-- Modelled from the spec: `RFC6749Error.WithDebug` sets the debug detail
and leaves identifier and status alone. -/
def RFC6749Error.WithDebug (e : RFC6749Error) (debug : String) : RFC6749Error :=
  { e with DebugField := debug }

/-! ## token/jwt: JARM claims -/

/-- A Go `interface{}` value held in a claim mapping. `float64` values are the
finite ones, as rationals; `other` stands for a value of any other dynamic
type, known by a rendering. -/
inductive Value where
  | str (s : String)
  | strs (l : List String)
  | int64 (i : Int)
  | float64 (q : Rat)
  | other (rendering : String)
  deriving DecidableEq

/-- The type `map[string]interface{}` (also `jwt.MapClaims`). -/
abbrev MapClaims := GoMap Value

/-- A `time.Time`, as an instant: seconds since the Unix epoch and the
nanoseconds within the second. -/
structure Time where
  sec : Int
  nsec : Nat
  deriving DecidableEq

namespace Time

/-- The zero `time.Time`: January 1, year 1, 00:00:00 UTC. -/
def zero : Time := { sec := -62135596800, nsec := 0 }

/-- The method `Time.IsZero`. -/
def IsZero (t : Time) : Bool := t.sec == -62135596800 && t.nsec == 0

/-- The method `Time.Unix`: whole seconds since the epoch. -/
def Unix (t : Time) : Int := t.sec

/-- The value `time.Unix(sec, 0).UTC()`. -/
def ofUnix (sec : Int) : Time := { sec := sec, nsec := 0 }

/-- The method `Time.Add`, the duration in nanoseconds. -/
def Add (t : Time) (d : Int) : Time :=
  let total := t.sec * 1000000000 + (t.nsec : Int) + d
  { sec := total / 1000000000, nsec := (total % 1000000000).toNat }

end Time

/-- The struct `JARMClaims`. `Extra = none` is the nil map. -/
structure JARMClaims where
  Issuer : String
  Audience : List String
  JTI : String
  IssuedAt : Time
  ExpiresAt : Time
  Extra : Option MapClaims
  deriving DecidableEq

/-- The zero value of `JARMClaims`. -/
def JARMClaims.fresh : JARMClaims :=
  { Issuer := "", Audience := [], JTI := "", IssuedAt := Time.zero, ExpiresAt := Time.zero,
    Extra := none }

/-- Modelled from the spec: `jwt.Copy` is not among the embedded files. It
returns a new (non-nil) map holding every element of its argument. -/
def Copy (elements : Option MapClaims) : MapClaims :=
  match elements with
  | none => ∅
  | some m => m.entries.foldl (fun r e => r.insert e.1 e.2) ∅

/-- Modelled from the spec: `toTime` is not among the embedded files. It is
"tolerant of numeric or textual timestamp encodings" (section 4.5): a number
is taken as seconds since the epoch (a float truncated toward zero), a text
that reads as a decimal integer likewise, anything else keeps the default. -/
def toTime (v : Value) (default : Time) : Time :=
  match v with
  | .int64 a => Time.ofUnix a
  | .float64 q => Time.ofUnix (q.num.tdiv q.den)
  | .str s =>
    match s.toInt? with
    | some a => Time.ofUnix a
    | none => default
  | _ => default

namespace JARMClaims

/-- The method `ToMap`; `uuid` is what `uuid.New().String()` returns if it is
called. -/
def ToMap (uuid : String) (c : JARMClaims) : MapClaims :=
  let ret := Copy c.Extra
  let ret := if c.Issuer != "" then ret.insert "iss" (Value.str c.Issuer) else ret.erase "iss"
  let ret := if c.JTI != "" then ret.insert "jti" (Value.str c.JTI)
    else ret.insert "jti" (Value.str uuid)
  let ret := if c.Audience.length > 0 then ret.insert "aud" (Value.strs c.Audience)
    else ret.insert "aud" (Value.strs [])
  let ret := if !c.IssuedAt.IsZero then ret.insert "iat" (Value.int64 c.IssuedAt.Unix)
    else ret.erase "iat"
  let ret := if !c.ExpiresAt.IsZero then ret.insert "exp" (Value.int64 c.ExpiresAt.Unix)
    else ret.erase "exp"
  ret

/-- One iteration of the loop of `FromMap`. An assignment `c.Extra[k] = v` to
a nil map cannot happen here: `FromMap` has just made the map. -/
def fromMapStep (c : JARMClaims) (k : String) (v : Value) : JARMClaims :=
  if k = "jti" then
    match v with
    | .str s => { c with JTI := s }
    | _ => c
  else if k = "iss" then
    match v with
    | .str s => { c with Issuer := s }
    | _ => c
  else if k = "aud" then
    match v with
    | .str s => { c with Audience := [s] }
    | .strs s => { c with Audience := s }
    | _ => c
  else if k = "iat" then { c with IssuedAt := toTime v c.IssuedAt }
  else if k = "exp" then { c with ExpiresAt := toTime v c.ExpiresAt }
  else { c with Extra := some ((c.Extra.getD ∅).insert k v) }

/-- The method `FromMap`. -/
def FromMap (c : JARMClaims) (m : MapClaims) : JARMClaims :=
  m.entries.foldl (fun c e => fromMapStep c e.1 e.2) { c with Extra := some ∅ }

/-- The method `Add`. -/
def Add (c : JARMClaims) (key : String) (value : Value) : JARMClaims :=
  { c with Extra := some ((c.Extra.getD ∅).insert key value) }

/-- The method `Get`. -/
def Get (uuid : String) (c : JARMClaims) (key : String) : Option Value :=
  (c.ToMap uuid).lookup key

/-- The method `ToMapClaims`. -/
def ToMapClaims (uuid : String) (c : JARMClaims) : MapClaims :=
  c.ToMap uuid

/-- The method `FromMapClaims`. -/
def FromMapClaims (c : JARMClaims) (mc : MapClaims) : JARMClaims :=
  c.FromMap mc

end JARMClaims

/-! ## token/jarm: the generator -/

/-- A non-nil session value, by the interfaces it implements: each capability
gives the headers and the claim mapping (`ToMapClaims()`) the session owns. -/
structure SessionValue where
  /-- The interface `IDTokenSession`: `IDTokenHeaders()`, `IDTokenClaims().ToMapClaims()`. -/
  idToken : Option (MapClaims × MapClaims)
  /-- The interface `JWTSessionContainer`: `GetJWTHeader()`, `GetJWTClaims().ToMapClaims()`. -/
  jwtContainer : Option (MapClaims × MapClaims)
  deriving DecidableEq

/-- The `session any` argument; `none` is nil. -/
abbrev Session := Option SessionValue

/-- The interface `jarm.Client`. -/
structure Client where
  ID : String
  deriving DecidableEq

/-- The method `jwt.Signer.Generate`, from the claim mapping and the headers. -/
abbrev Signer := MapClaims → MapClaims → String × String × Option GoError

/-- The interface `jarm.Configurator`; the lifespan is in nanoseconds, a
missing signer is `none`. -/
structure Configurator where
  lifespan : Int
  signer : Option Signer
  issuer : String

/-- What the generator reads from outside: the uuid drawn for the token id,
the uuid `ToMap` would draw, and the two readings of the clock. -/
structure Ambient where
  uuid : String
  uuidToMap : String
  now1 : Time
  now2 : Time

/-- The statement `claims.Extra[param] = value`: a Go run-time fault when the
map is nil. -/
def assignExtra (c : JARMClaims) (param : String) (value : Value) : Except String JARMClaims :=
  match c.Extra with
  | none => .error "assignment to entry in nil map"
  | some m => .ok { c with Extra := some (m.insert param value) }

/-- The function `GenerateTokenFromParameters`. The result is the returned
triple, or the run-time fault that stopped the call. -/
def GenerateTokenFromParameters (config : Configurator) (amb : Ambient) (client : Client)
    (session : Session) (params : Values) : Except String (String × String × Option GoError) :=
  let capability : Except GoError (MapClaims × MapClaims) :=
    match session with
    | none => .error (.plain
        "The JARM response modes require the Authorize Requester session to be set but it wasn't.")
    | some s =>
      match s.idToken with
      | some hc => .ok hc
      | none =>
        match s.jwtContainer with
        | some hc => .ok hc
        | none => .error (.plain
            "The JARM response modes require the Authorize Requester session to implement either the openid.Session or oauth2.JWTSessionContainer interfaces but it doesn't.")
  match capability with
  | .error e => .ok ("", "", some e)
  | .ok (headers, src) =>
    let issuer : String :=
      match src.lookup "iss" with
      | some (.str s) => s
      | _ => ""
    let issuer := if issuer.length ≤ 0 then config.issuer else issuer
    let claims : JARMClaims :=
      { JTI := amb.uuid
        Issuer := issuer
        Audience := [client.ID]
        IssuedAt := amb.now1
        ExpiresAt := amb.now2.Add config.lifespan
        Extra := none }
    match params.entries.foldlM (fun c e => assignExtra c e.1 (.str (params.Get e.1))) claims with
    | .error fault => .error fault
    | .ok claims =>
      match config.signer with
      | none => .ok ("", "", some (.plain
          "The JARM response modes require the JWTSecuredAuthorizeResponseModeSignerProvider to return a jwt.Signer but it didn't."))
      | some signer => .ok (signer (claims.ToMapClaims amb.uuidToMap) headers)

/-- The function `GenerateTokenToResponseParameters`; a nil `url.Values` is `none`. -/
def GenerateTokenToResponseParameters (token _signature : String) (tErr : Option GoError) :
    Option Values × Option GoError :=
  match tErr with
  | some e => (none, some e)
  | none => (some (AList.singleton "response" [token]), none)

/-- The function `GenerateParameters`. -/
def GenerateParameters (config : Configurator) (amb : Ambient) (client : Client)
    (session : Session) (params : Values) : Except String (Option Values × Option GoError) :=
  match GenerateTokenFromParameters config amb client session params with
  | .error fault => .error fault
  | .ok (token, signature, tErr) => .ok (GenerateTokenToResponseParameters token signature tErr)

/-! ## The dispatcher -/

/-- The requested response mode (`ResponseModeType`): the eight built-in
constants, or any other value. -/
inductive ResponseModeType where
  | Default
  | FormPost
  | Query
  | Fragment
  | JWT
  | JWTQuery
  | JWTFragment
  | JWTFormPost
  | Ext (tag : String)
  deriving DecidableEq

/-- Modelled from the spec: `Arguments.ExactOne` is not among the embedded
files. The response types are exactly the one element `name`. -/
def ExactOne (r : List String) (name : String) : Bool :=
  r.length == 1 && r.head? == some name

/-- The interface `AuthorizeRequester`, by the getters the code calls. -/
structure AuthorizeRequester where
  IsRedirectURIValid : Bool
  RedirectURI : URL
  ResponseMode : ResponseModeType
  ResponseTypes : List String
  State : String
  Client : Client
  Session : Session
  /-- The result of `getLangFromRequester`. -/
  Lang : String
  deriving DecidableEq

/-- The interface `AuthorizeResponder`: `GetHeader()` and `GetParameters()`. -/
structure AuthorizeResponder where
  Header : Header
  Parameters : Values
  deriving DecidableEq

/-- The receiver `*Fosite`: what the code reads from its configuration;
`handlerModes` is `f.ResponseModeHandler(ctx).ResponseModes()`. -/
structure Fosite where
  UseLegacyErrorFormat : Bool
  SendDebugMessagesToClients : Bool
  jarm : Configurator
  handlerModes : List ResponseModeType

/-- One operation of a call, in the order performed. Transport operations
carry the header map at that moment. -/
inductive Event where
  | headerSet (key value : String)
  | headerAdd (key value : String)
  | headerDel (key : String)
  | writeHeader (code : Nat) (headers : Header)
  | write (body : String) (headers : Header)
  | generateParameters (params : Values)
  | formPost (action : String) (params : Values) (headers : Header)
  | handlerWriteResponse (ar : AuthorizeRequester) (resp : AuthorizeResponder) (headers : Header)
  | handlerWriteError (ar : AuthorizeRequester) (err : GoError) (headers : Header)
  | fault (msg : String)
  deriving DecidableEq

/-- The `http.ResponseWriter`: its header map and the log of the call. -/
structure ResponseWriter where
  header : Header
  log : List Event
  deriving DecidableEq

namespace ResponseWriter

/-- The call `rw.Header().Set(key, value)`. -/
def HeaderSet (rw : ResponseWriter) (key value : String) : ResponseWriter :=
  { header := rw.header.Set key value
    log := rw.log ++ [.headerSet (CanonicalMIMEHeaderKey key) value] }

/-- The call `rw.Header().Add(key, value)`. -/
def HeaderAdd (rw : ResponseWriter) (key value : String) : ResponseWriter :=
  { header := rw.header.Add key value
    log := rw.log ++ [.headerAdd (CanonicalMIMEHeaderKey key) value] }

/-- The call `rw.Header().Del(key)`. -/
def HeaderDel (rw : ResponseWriter) (key : String) : ResponseWriter :=
  { header := rw.header.Del key
    log := rw.log ++ [.headerDel (CanonicalMIMEHeaderKey key)] }

/-- The call `rw.WriteHeader(code)`. -/
def WriteHeader (rw : ResponseWriter) (code : Nat) : ResponseWriter :=
  { rw with log := rw.log ++ [.writeHeader code rw.header] }

/-- The call `rw.Write(body)`. -/
def Write (rw : ResponseWriter) (body : String) : ResponseWriter :=
  { rw with log := rw.log ++ [.write body rw.header] }

/-- Append a non-transport event to the log. -/
def record (rw : ResponseWriter) (e : Event) : ResponseWriter :=
  { rw with log := rw.log ++ [e] }

end ResponseWriter

/-- The function `http.Error`. -/
def httpError (rw : ResponseWriter) (error : String) (code : Nat) : ResponseWriter :=
  let rw := rw.HeaderDel "Content-Length"
  let rw := rw.HeaderSet "Content-Type" "text/plain; charset=utf-8"
  let rw := rw.HeaderSet "X-Content-Type-Options" "nosniff"
  let rw := rw.WriteHeader code
  rw.Write (error ++ "\n")

/-- The function `sendRedirect`. -/
def sendRedirect (url : String) (rw : ResponseWriter) : ResponseWriter :=
  (rw.HeaderSet "Location" url).WriteHeader 303

/-- The method `handleWriteAuthorizeErrorJSON`. -/
def handleWriteAuthorizeErrorJSON (ek : ErrorKit) (f : Fosite) (rw : ResponseWriter)
    (rfcerr : RFC6749Error) : ResponseWriter :=
  let rw := rw.HeaderSet "Content-Type" "application/json;charset=UTF-8"
  match ek.jsonMarshal rfcerr with
  | .error msg =>
    if f.SendDebugMessagesToClients then
      httpError rw
        ("\x7b\"error\":\"server_error\",\"error_description\":\"" ++ ek.escapeJSONString msg
          ++ "\"\x7d") 500
    else
      httpError rw "\x7b\"error\":\"server_error\"\x7d" 500
  | .ok js => (rw.WriteHeader rfcerr.CodeField).Write js

/-- The first `switch` of `WriteAuthorizeResponse` (lines 30-45): the mode
after canonicalisation, and whether `getParameters` is the JARM generator. -/
def resolveModeResponse (rm : ResponseModeType) (responseTypes : List String) :
    ResponseModeType × Bool :=
  match rm with
  | .JWT => (if ExactOne responseTypes "code" then .JWTQuery else .JWTFragment, true)
  | .JWTFormPost => (rm, true)
  | .JWTQuery => (rm, true)
  | .JWTFragment => (rm, true)
  | _ => (rm, false)

/-- The first `switch` of `WriteAuthorizeError` (lines 36-51). -/
def resolveModeError (rm : ResponseModeType) (responseTypes : List String) :
    ResponseModeType × Bool :=
  match rm with
  | .JWT => (if ExactOne responseTypes "code" then .JWTQuery else .JWTFragment, true)
  | .JWTFormPost => (rm, true)
  | .JWTQuery => (rm, true)
  | .JWTFragment => (rm, true)
  | _ => (rm, false)

/-- The arm of the second `switch` that is taken. -/
inductive Delivery where
  | formPost
  | query
  | fragment
  | handler
  | nothing
  deriving DecidableEq

/-- The second `switch` of `WriteAuthorizeResponse` (lines 52-103); the default
arm asks the handler about the resolved mode `rm`. -/
def deliveryResponse (f : Fosite) (rm : ResponseModeType) : Delivery :=
  match rm with
  | .FormPost => .formPost
  | .JWTFormPost => .formPost
  | .Query => .query
  | .JWTQuery => .query
  | .Default => .query
  | .Fragment => .fragment
  | .JWTFragment => .fragment
  | _ => if f.handlerModes.contains rm then .handler else .nothing

/-- The second `switch` of `WriteAuthorizeError` (lines 57-109); the default
arm asks the handler about the requested mode `ar.GetResponseMode()`. -/
def deliveryError (f : Fosite) (rm requested : ResponseModeType) : Delivery :=
  match rm with
  | .FormPost => .formPost
  | .JWTFormPost => .formPost
  | .Query => .query
  | .JWTQuery => .query
  | .Default => .query
  | .Fragment => .fragment
  | .JWTFragment => .fragment
  | _ => if f.handlerModes.contains requested then .handler else .nothing

/-- The value of `getParameters(ctx, f.Config, ar.GetClient(), ar.GetSession(), params)`:
the JARM generator, or the closure that returns `params`. -/
def generate (useJARM : Bool) (f : Fosite) (amb : Ambient) (ar : AuthorizeRequester)
    (params : Values) : Except String (Option Values × Option GoError) :=
  if useJARM then GenerateParameters f.jarm amb ar.Client ar.Session params
  else .ok (some params, none)

/-- The call of `getParameters`: a call of the JARM generator is logged. -/
def getParameters (useJARM : Bool) (f : Fosite) (amb : Ambient) (ar : AuthorizeRequester)
    (params : Values) (rw : ResponseWriter) :
    ResponseWriter × Except String (Option Values × Option GoError) :=
  (if useJARM then rw.record (.generateParameters params) else rw,
    generate useJARM f amb ar params)

/-- The loop `for k := range parameters { q.Set(k, parameters.Get(k)) }`. -/
def mergeQuery (q parameters : Values) : Values :=
  parameters.entries.foldl (fun q e => q.Set e.1 (parameters.Get e.1)) q

/-- The query arm after `getParameters` succeeded (lines 72-80 and 77-85). -/
def deliverQuery (nu : NetURL) (redir : URL) (parameters : Values) (rw : ResponseWriter) :
    ResponseWriter :=
  let q := mergeQuery (redir.Query nu) parameters
  let redir := { redir with RawQuery := nu.encode q }
  sendRedirect (redir.String nu) rw

/-- The fragment arm after `getParameters` succeeded (lines 90-98 and 95-103). -/
def deliverFragment (nu : NetURL) (redir : URL) (parameters : Values) (rw : ResponseWriter) :
    ResponseWriter :=
  let redir := { redir with Fragment := "" }
  let u := redir.String nu
  let u := if parameters.entries.length > 0 then u ++ "#" ++ nu.encode parameters else u
  sendRedirect u rw

/-- The form-post arm after `getParameters` succeeded: the header is added
and `WriteAuthorizeFormPostResponse` is called with the rendered target. -/
def deliverFormPost (nu : NetURL) (redir : URL) (parameters : Values) (rw : ResponseWriter) :
    ResponseWriter :=
  let rw := rw.HeaderAdd "Content-Type" "text/html;charset=UTF-8"
  rw.record (.formPost (redir.String nu) parameters rw.header)

/-- The loop `for k := range rh { wh.Set(k, rh.Get(k)) }`. -/
def copyHeaders (rh : Header) (rw : ResponseWriter) : ResponseWriter :=
  rh.entries.foldl (fun rw e => rw.HeaderSet e.1 (Header.Get rh e.1)) rw

/-- The `if parameters, err = getParameters(..); err != nil { .. return }`
statement that opens each delivery arm, and the rest of the arm: a run-time
fault inside `getParameters` stops the call, an error is classified by
`classify` and written as a JSON error, otherwise `deliver` runs on the
generated parameters. -/
def afterParameters (ek : ErrorKit) (f : Fosite) (classify : GoError → RFC6749Error)
    (deliver : Values → ResponseWriter → ResponseWriter) :
    ResponseWriter × Except String (Option Values × Option GoError) → ResponseWriter
  | (rw, .error msg) => rw.record (.fault msg)
  | (rw, .ok (_, some err)) => handleWriteAuthorizeErrorJSON ek f rw (classify err)
  | (rw, .ok (parameters, none)) => deliver (parameters.getD ∅) rw

/-- The expression `ErrServerError.WithWrap(err).WithDebug(err.Error())`. -/
def serverError (ek : ErrorKit) (err : GoError) : RFC6749Error :=
  ((ErrServerError ek).WithWrap ek err).WithDebug (err.Error ek)

/-- The method `WriteAuthorizeResponse`. -/
def WriteAuthorizeResponse (nu : NetURL) (ek : ErrorKit) (amb : Ambient) (f : Fosite)
    (rw : ResponseWriter) (ar : AuthorizeRequester) (resp : AuthorizeResponder) :
    ResponseWriter :=
  let rw := copyHeaders resp.Header rw
  let rw := rw.HeaderSet "Cache-Control" "no-store"
  let rw := rw.HeaderSet "Pragma" "no-cache"
  let redir := ar.RedirectURI
  let resolved := resolveModeResponse ar.ResponseMode ar.ResponseTypes
  let rm := resolved.1
  match deliveryResponse f rm with
  | .formPost =>
    afterParameters ek f (serverError ek) (deliverFormPost nu redir)
      (getParameters resolved.2 f amb ar resp.Parameters rw)
  | .query =>
    afterParameters ek f (serverError ek) (deliverQuery nu redir)
      (getParameters resolved.2 f amb ar resp.Parameters rw)
  | .fragment =>
    afterParameters ek f (serverError ek) (deliverFragment nu redir)
      (getParameters resolved.2 f amb ar resp.Parameters rw)
  | .handler => rw.record (.handlerWriteResponse ar resp rw.header)
  | .nothing => rw

/-- The method `WriteAuthorizeError`. The form-post arm classifies a generator
error with `ErrorToRFC6749Error` (line 61), the two redirect arms with
`ErrServerError` (lines 72 and 90). -/
def WriteAuthorizeError (nu : NetURL) (ek : ErrorKit) (amb : Ambient) (f : Fosite)
    (rw : ResponseWriter) (ar : AuthorizeRequester) (err : GoError) : ResponseWriter :=
  let rw := rw.HeaderSet "Cache-Control" "no-store"
  let rw := rw.HeaderSet "Pragma" "no-cache"
  let rfcerr := ek.withPolicy f.UseLegacyErrorFormat f.SendDebugMessagesToClients ar.Lang
    (ErrorToRFC6749Error ek err)
  if !ar.IsRedirectURIValid then
    handleWriteAuthorizeErrorJSON ek f rw rfcerr
  else
    let errors := (ek.toValues rfcerr).Set "state" ar.State
    let redir := ar.RedirectURI
    let resolved := resolveModeError ar.ResponseMode ar.ResponseTypes
    let rm := resolved.1
    match deliveryError f rm ar.ResponseMode with
    | .formPost =>
      afterParameters ek f (ErrorToRFC6749Error ek) (deliverFormPost nu redir)
        (getParameters resolved.2 f amb ar errors rw)
    | .query =>
      afterParameters ek f (serverError ek) (deliverQuery nu redir)
        (getParameters resolved.2 f amb ar errors rw)
    | .fragment =>
      afterParameters ek f (serverError ek) (deliverFragment nu redir)
        (getParameters resolved.2 f amb ar errors rw)
    | .handler => rw.record (.handlerWriteError ar err rw.header)
    | .nothing => rw

/-! ## Reading a log -/

namespace Event

/-- The header map a transport operation (or a call that hands the writer to
a collaborator) was issued with. -/
def headers? : Event → Option Header
  | .writeHeader _ h => some h
  | .write _ h => some h
  | .formPost _ _ h => some h
  | .handlerWriteResponse _ _ h => some h
  | .handlerWriteError _ _ h => some h
  | _ => none

/-- The event writes the `Location` header. -/
def setsLocation : Event → Bool
  | .headerSet k _ => k == "Location"
  | .headerAdd k _ => k == "Location"
  | _ => false

/-- The event is a call of the JARM generator. -/
def isGenerator : Event → Bool
  | .generateParameters _ => true
  | _ => false

/-- The event is a call of the form-post writer. -/
def isFormPost : Event → Bool
  | .formPost _ _ _ => true
  | _ => false

/-- The event is a call of the extension handler. -/
def isHandler : Event → Bool
  | .handlerWriteResponse _ _ _ => true
  | .handlerWriteError _ _ _ => true
  | _ => false

/-- The status code of a `WriteHeader`. -/
def status? : Event → Option Nat
  | .writeHeader code _ => some code
  | _ => none

/-- The body of a `Write`. -/
def body? : Event → Option String
  | .write body _ => some body
  | _ => none

end Event

/-- The status codes written, in order. -/
def statusCodes (log : List Event) : List Nat := log.filterMap Event.status?

/-- The bodies written, in order. -/
def bodies (log : List Event) : List String := log.filterMap Event.body?

/-- Both cache-suppression headers hold exactly their one value. -/
def CacheSuppressed (h : Header) : Prop :=
  h.lookup "Cache-Control" = some ["no-store"] ∧ h.lookup "Pragma" = some ["no-cache"]

/-- Every transport operation of the log was issued under cache suppression. -/
def LogSuppressed (log : List Event) : Prop :=
  ∀ e ∈ log, ∀ h, e.headers? = some h → CacheSuppressed h

/-! ## Sample collaborators -/

/-- A sample `net/url`: values are rendered as `k=v` joined by `&`, and the
one raw query `a=1&code=old` is parsed back. -/
def sampleNetURL : NetURL :=
  { parseQuery := fun raw =>
      if raw = "a=1&code=old" then (AList.singleton "a" ["1"]).insert "code" ["old"] else ∅
    encode := fun v => "&".intercalate (v.entries.map fun e => e.1 ++ "=" ++ ",".intercalate e.2)
    escapedFragment := fun frag _ => frag }

/-- A sample error formatter whose JSON rendering succeeds. -/
def sampleKit : ErrorKit :=
  { unrecognized := fun msg =>
      { ErrorField := "error", DescriptionField := "The error is unrecognizable", HintField := "",
        CodeField := 500, DebugField := msg, cause := none }
    rfcErrorString := fun e => e.ErrorField
    withPolicy := fun _ _ _ e => e
    toValues := fun e =>
      (AList.singleton "error" [e.ErrorField]).insert "error_description" [e.DescriptionField]
    serverErrorDescription := "The authorization server encountered an unexpected condition."
    serverErrorHint := ""
    jsonMarshal := fun e => .ok ("\x7b\"error\":\"" ++ e.ErrorField ++ "\"\x7d")
    escapeJSONString := fun s => s }

/-- A sample clock and uuid source. -/
def sampleAmbient : Ambient :=
  { uuid := "6ba7b810-9dad-11d1-80b4-00c04fd430c8"
    uuidToMap := "6ba7b811-9dad-11d1-80b4-00c04fd430c8"
    now1 := { sec := 1700000000, nsec := 250 }
    now2 := { sec := 1700000000, nsec := 900 } }

/-- A sample signer: the token names the issuer it was given. -/
def sampleSigner : Signer := fun claims _ =>
  match claims.lookup "iss" with
  | some (.str s) => ("header." ++ s ++ ".sig", "sig", none)
  | _ => ("header..sig", "sig", none)

/-- A sample configuration: ten minutes of lifespan, a signer, no extension modes. -/
def sampleFosite : Fosite :=
  { UseLegacyErrorFormat := false
    SendDebugMessagesToClients := false
    jarm := { lifespan := 600000000000, signer := some sampleSigner, issuer := "https://as.example" }
    handlerModes := [] }

/-- A sample session with the ID-token capability. -/
def sampleSession : Session :=
  some { idToken := some (∅, ∅), jwtContainer := none }

/-- A sample request: a valid target with a stale fragment, code flow. -/
def sampleRequester (mode : ResponseModeType) : AuthorizeRequester :=
  { IsRedirectURIValid := true
    RedirectURI :=
      { head := "https://cb.example/cb", ForceQuery := false, RawQuery := "",
        Fragment := "old", RawFragment := "" }
    ResponseMode := mode
    ResponseTypes := ["code"]
    State := "xyz"
    Client := { ID := "client-1" }
    Session := sampleSession
    Lang := "en" }

/-- The sample request with a redirect target that failed validation. -/
def untrustedRequester (mode : ResponseModeType) : AuthorizeRequester :=
  { sampleRequester mode with IsRedirectURIValid := false }

/-- A sample RFC6749 error: `invalid_request`, status 400. -/
def invalidRequest : RFC6749Error :=
  { ErrorField := "invalid_request", DescriptionField := "The request is malformed.",
    HintField := "", CodeField := 400, DebugField := "", cause := none }

/-- A sample success payload that tries to re-enable caching. -/
def sampleResponder : AuthorizeResponder :=
  { Header := (AList.singleton "cache-control" ["public"]).insert "X-Custom" ["1"]
    Parameters := AList.singleton "code" ["abc"] }

/-- The hardcoded body written when the JSON rendering fails. -/
def fallbackBody (ek : ErrorKit) (f : Fosite) (msg : String) : String :=
  if f.SendDebugMessagesToClients then
    "\x7b\"error\":\"server_error\",\"error_description\":\"" ++ ek.escapeJSONString msg
      ++ "\"\x7d"
  else "\x7b\"error\":\"server_error\"\x7d"

/-- The writer is under cache suppression, and so was every transport
operation of its log. -/
def Suppressed (rw : ResponseWriter) : Prop :=
  CacheSuppressed rw.header ∧ LogSuppressed rw.log

/-- The sample request without a session. -/
def sessionlessRequester (mode : ResponseModeType) : AuthorizeRequester :=
  { sampleRequester mode with Session := none }

/-- The five keys `ToMap` and `FromMap` treat as typed fields. -/
def reservedKey (k : String) : Bool :=
  k == "jti" || k == "iss" || k == "aud" || k == "iat" || k == "exp"

/-- A claims value whose `Extra` shadows the issuer key. -/
def shadowingClaims : JARMClaims :=
  { Issuer := "https://as.example", Audience := ["client-1"], JTI := "id-1",
    IssuedAt := Time.ofUnix 1700000000, ExpiresAt := Time.ofUnix 1700000600,
    Extra := some ((AList.singleton "iss" (Value.str "shadow")).insert "state" (Value.str "xyz")) }

/-- A claims value with a nil `Extra`, an empty token id and sub-second
timestamps. -/
def bareClaims : JARMClaims :=
  { Issuer := "", Audience := [], JTI := "", IssuedAt := { sec := 1700000000, nsec := 250 },
    ExpiresAt := Time.zero, Extra := none }

/-- The sample request, its target carrying the query `a=1&code=old`. -/
def queryRequester (mode : ResponseModeType) : AuthorizeRequester :=
  { sampleRequester mode with
    RedirectURI :=
      { head := "https://cb.example/cb", ForceQuery := false, RawQuery := "a=1&code=old",
        Fragment := "old", RawFragment := "old" } }

/-- The writer of `WriteAuthorizeResponse` when the delivery switch is reached
(lines 15-22): custom headers merged, cache headers set. -/
def responseStart (rw : ResponseWriter) (resp : AuthorizeResponder) : ResponseWriter :=
  ((copyHeaders resp.Header rw).HeaderSet "Cache-Control" "no-store").HeaderSet
    "Pragma" "no-cache"

/-- The writer of `WriteAuthorizeError` when the delivery switch is reached
(lines 17-18). -/
def errorStart (rw : ResponseWriter) : ResponseWriter :=
  (rw.HeaderSet "Cache-Control" "no-store").HeaderSet "Pragma" "no-cache"

/-- The parameters of `WriteAuthorizeError` (lines 20, 27-28): the values of
the formatted error, with the request state. -/
def errorParameters (ek : ErrorKit) (f : Fosite) (ar : AuthorizeRequester) (err : GoError) :
    Values :=
  (ek.toValues (ek.withPolicy f.UseLegacyErrorFormat f.SendDebugMessagesToClients ar.Lang
    (ErrorToRFC6749Error ek err))).Set "state" ar.State

/-- The record of a call of the JARM generator, when there is one. -/
def generatorRecord (useJARM : Bool) (params : Values) : List Event :=
  if useJARM then [.generateParameters params] else []

/-- A success payload without parameters and without custom headers. -/
def emptyResponder : AuthorizeResponder :=
  { Header := ∅, Parameters := ∅ }

/-! ## The steps of the generator -/

/-- The type switch on `session` (generate.go lines 54-65): the headers and the
claim mapping of the first capability the session has, or the error
returned. -/
def sessionCapability (session : Session) : Except GoError (MapClaims × MapClaims) :=
  match session with
  | none => .error (.plain
      "The JARM response modes require the Authorize Requester session to be set but it wasn't.")
  | some s =>
    match s.idToken with
    | some hc => .ok hc
    | none =>
      match s.jwtContainer with
      | some hc => .ok hc
      | none => .error (.plain
          "The JARM response modes require the Authorize Requester session to implement either the openid.Session or oauth2.JWTSessionContainer interfaces but it doesn't.")

/-- The issuer chosen in generate.go lines 67-79. -/
def tokenIssuer (config : Configurator) (src : MapClaims) : String :=
  let issuer : String :=
    match src.lookup "iss" with
    | some (.str s) => s
    | _ => ""
  if issuer.length ≤ 0 then config.issuer else issuer

/-- The claims literal of generate.go lines 81-87. -/
def initialClaims (config : Configurator) (amb : Ambient) (client : Client) (src : MapClaims) :
    JARMClaims :=
  { JTI := amb.uuid
    Issuer := tokenIssuer config src
    Audience := [client.ID]
    IssuedAt := amb.now1
    ExpiresAt := amb.now2.Add config.lifespan
    Extra := none }

/-- The error returned when no signer is configured (generate.go line 96). -/
def signerMissing : GoError :=
  .plain
    "The JARM response modes require the JWTSecuredAuthorizeResponseModeSignerProvider to return a jwt.Signer but it didn't."

/-- The generator after the type switch (generate.go lines 67-99), for the
headers and the claim mapping `hc` of the session: the claims are built, the
parameters are written into `Extra`, and the signer, if there is one, is
called. -/
def afterSession (config : Configurator) (amb : Ambient) (client : Client) (params : Values)
    (hc : MapClaims × MapClaims) : Except String (String × String × Option GoError) :=
  match params.entries.foldlM (fun c e => assignExtra c e.1 (.str (params.Get e.1)))
      (initialClaims config amb client hc.2) with
  | .error fault => .error fault
  | .ok claims =>
    match config.signer with
    | none => .ok ("", "", some signerMissing)
    | some signer => .ok (signer (claims.ToMapClaims amb.uuidToMap) hc.1)

/-- The sample configuration without a JARM signer. -/
def signerlessFosite : Fosite :=
  { sampleFosite with
    jarm := { lifespan := 600000000000, signer := none, issuer := "https://as.example" } }

/-- A success payload whose custom headers carry a Content-Type. -/
def typedResponder : AuthorizeResponder :=
  { Header := AList.singleton "Content-Type" ["application/json"]
    Parameters := AList.singleton "code" ["abc"] }

/-- A sample session whose own claims name an issuer. -/
def issuingSession : Session :=
  some { idToken := none
         jwtContainer := some (∅, AList.singleton "iss" (Value.str "https://session.example")) }

/-- A populated claims value, as a receiver of `FromMap`. -/
def populatedClaims : JARMClaims :=
  { Issuer := "https://as.example", Audience := ["client-1"], JTI := "id-1",
    IssuedAt := Time.ofUnix 1700000000, ExpiresAt := Time.ofUnix 1700000600,
    Extra := some (AList.singleton "old" (Value.str "gone")) }

/-- A mapping whose well-known keys all hold values of a type `FromMap` does
not accept, next to one ordinary key. -/
def rejectedMapping : MapClaims :=
  ((((((∅ : MapClaims).insert "jti" (Value.int64 7)).insert "iss" (Value.strs ["a"])).insert
    "aud" (Value.int64 1)).insert "iat" (Value.strs ["now"])).insert "exp"
    (Value.other "true")).insert "code" (Value.str "abc")

/-- A claims value without a token id whose `Extra` carries a stale `jti`. -/
def staleJTIClaims : JARMClaims :=
  { Issuer := "", Audience := [], JTI := "", IssuedAt := Time.zero, ExpiresAt := Time.zero,
    Extra := some (AList.singleton "jti" (Value.str "")) }

/-- The sample configuration with an extension handler that lists the mode
`web_message`. -/
def extendedFosite : Fosite :=
  { sampleFosite with handlerModes := [.Ext "web_message"] }

/-- The `Set` operations of the loop that merges the custom headers `rh`. -/
def customHeaderSets (rh : Header) : List Event :=
  rh.entries.map fun e => Event.headerSet (CanonicalMIMEHeaderKey e.1) (Header.Get rh e.1)

/-- A success payload without parameters whose custom headers carry a
`Location` and a `Content-Type`. -/
def redirectingResponder : AuthorizeResponder :=
  { Header := (AList.singleton "Location" ["https://evil.example/"]).insert
      "Content-Type" ["text/plain"]
    Parameters := ∅ }

/-! ## Facts about headers -/

theorem canonical_cacheControl : CanonicalMIMEHeaderKey "Cache-Control" = "Cache-Control" := rfl
theorem canonical_pragma : CanonicalMIMEHeaderKey "Pragma" = "Pragma" := rfl
theorem canonical_contentType : CanonicalMIMEHeaderKey "Content-Type" = "Content-Type" := rfl
theorem canonical_contentLength :
    CanonicalMIMEHeaderKey "Content-Length" = "Content-Length" := rfl
theorem canonical_nosniff :
    CanonicalMIMEHeaderKey "X-Content-Type-Options" = "X-Content-Type-Options" := rfl
theorem canonical_location : CanonicalMIMEHeaderKey "Location" = "Location" := rfl

/-! ## C1: an untrusted redirect target forces JSON delivery -/

/-- The log of `handleWriteAuthorizeErrorJSON` when the rendering succeeds. -/
theorem handleJSON_ok (ek : ErrorKit) (f : Fosite) (rw : ResponseWriter) (e : RFC6749Error)
    (js : String) (h : ek.jsonMarshal e = .ok js) :
    handleWriteAuthorizeErrorJSON ek f rw e =
      { header := rw.header.Set "Content-Type" "application/json;charset=UTF-8"
        log := rw.log ++
          [ .headerSet "Content-Type" "application/json;charset=UTF-8",
            .writeHeader e.CodeField (rw.header.Set "Content-Type" "application/json;charset=UTF-8"),
            .write js (rw.header.Set "Content-Type" "application/json;charset=UTF-8") ] } := by
  simp [handleWriteAuthorizeErrorJSON, h, ResponseWriter.HeaderSet, ResponseWriter.WriteHeader,
    ResponseWriter.Write, canonical_contentType]

/-- The log of `handleWriteAuthorizeErrorJSON` when the rendering fails. -/
theorem handleJSON_error (ek : ErrorKit) (f : Fosite) (rw : ResponseWriter) (e : RFC6749Error)
    (msg : String) (h : ek.jsonMarshal e = .error msg) :
    handleWriteAuthorizeErrorJSON ek f rw e =
      httpError (rw.HeaderSet "Content-Type" "application/json;charset=UTF-8")
        (fallbackBody ek f msg) 500 := by
  simp only [handleWriteAuthorizeErrorJSON, h, fallbackBody]
  split <;> rfl

/-- C1: with an untrusted redirect target, whatever the error, the requested
mode and the response types, `WriteAuthorizeError` never writes `Location`
and never calls the JARM generator, the form-post writer or an extension
handler: it sets Content-Type to `application/json;charset=UTF-8` and writes
the JSON rendering `js` of the formatted error, once, with the status code
mapped from that error. That `json.Marshal` renders the formatted error is
the assumption on the encoder. -/
theorem untrusted_redirect_json (nu : NetURL) (ek : ErrorKit) (amb : Ambient) (f : Fosite)
    (h0 : Header) (ar : AuthorizeRequester) (err : GoError) (js : String)
    (hinvalid : ar.IsRedirectURIValid = false)
    (hjson : ek.jsonMarshal (ek.withPolicy f.UseLegacyErrorFormat
      f.SendDebugMessagesToClients ar.Lang (ErrorToRFC6749Error ek err)) = .ok js) :
    (∀ e ∈ (WriteAuthorizeError nu ek amb f ⟨h0, []⟩ ar err).log,
        e.setsLocation = false ∧ e.isGenerator = false ∧ e.isFormPost = false
          ∧ e.isHandler = false)
    ∧ (WriteAuthorizeError nu ek amb f ⟨h0, []⟩ ar err).header.lookup "Location"
        = h0.lookup "Location"
    ∧ Event.headerSet "Content-Type" "application/json;charset=UTF-8"
        ∈ (WriteAuthorizeError nu ek amb f ⟨h0, []⟩ ar err).log
    ∧ (WriteAuthorizeError nu ek amb f ⟨h0, []⟩ ar err).header.lookup "Content-Type"
        = some ["application/json;charset=UTF-8"]
    ∧ (WriteAuthorizeError nu ek amb f ⟨h0, []⟩ ar err).header.Get "Content-Type"
        = "application/json;charset=UTF-8"
    ∧ statusCodes (WriteAuthorizeError nu ek amb f ⟨h0, []⟩ ar err).log
        = [(ek.withPolicy f.UseLegacyErrorFormat f.SendDebugMessagesToClients ar.Lang
            (ErrorToRFC6749Error ek err)).CodeField]
    ∧ bodies (WriteAuthorizeError nu ek amb f ⟨h0, []⟩ ar err).log = [js]
    ∧ (WriteAuthorizeError nu ek amb f ⟨h0, []⟩ ar err).log
        = [ .headerSet "Cache-Control" "no-store", .headerSet "Pragma" "no-cache",
            .headerSet "Content-Type" "application/json;charset=UTF-8",
            .writeHeader (ek.withPolicy f.UseLegacyErrorFormat f.SendDebugMessagesToClients
                ar.Lang (ErrorToRFC6749Error ek err)).CodeField
              (WriteAuthorizeError nu ek amb f ⟨h0, []⟩ ar err).header,
            .write js (WriteAuthorizeError nu ek amb f ⟨h0, []⟩ ar err).header ] := by
  have hrun : WriteAuthorizeError nu ek amb f ⟨h0, []⟩ ar err =
      handleWriteAuthorizeErrorJSON ek f
        ((ResponseWriter.mk h0 []).HeaderSet "Cache-Control" "no-store"
          |>.HeaderSet "Pragma" "no-cache")
        (ek.withPolicy f.UseLegacyErrorFormat f.SendDebugMessagesToClients ar.Lang
          (ErrorToRFC6749Error ek err)) := by
    simp [WriteAuthorizeError, hinvalid]
  rw [hrun, handleJSON_ok ek f _ _ js hjson]
  simp [ResponseWriter.HeaderSet, Header.Set, Header.Get, Header.values, statusCodes, bodies,
    Event.setsLocation, Event.isGenerator, Event.isFormPost, Event.isHandler, Event.status?,
    Event.body?, canonical_contentType, canonical_cacheControl, canonical_pragma,
    AList.lookup_insert_ne]

/-- C1, witness: the sample request with an untrusted target and the generic
JWT mode, and an `invalid_request` error: status 400 and its rendering. -/
theorem untrusted_redirect_json_witness :
    (untrustedRequester .JWT).IsRedirectURIValid = false
    ∧ sampleKit.jsonMarshal (sampleKit.withPolicy false false "en"
        (ErrorToRFC6749Error sampleKit (.rfc invalidRequest)))
      = .ok "\x7b\"error\":\"invalid_request\"\x7d"
    ∧ statusCodes (WriteAuthorizeError sampleNetURL sampleKit sampleAmbient sampleFosite
        ⟨∅, []⟩ (untrustedRequester .JWT) (.rfc invalidRequest)).log = [400]
    ∧ bodies (WriteAuthorizeError sampleNetURL sampleKit sampleAmbient sampleFosite
        ⟨∅, []⟩ (untrustedRequester .JWT) (.rfc invalidRequest)).log
        = ["\x7b\"error\":\"invalid_request\"\x7d"] :=
  ⟨rfl, rfl,
    (untrusted_redirect_json sampleNetURL sampleKit sampleAmbient sampleFosite ∅
        (untrustedRequester .JWT) (.rfc invalidRequest) _ rfl rfl).2.2.2.2.2.1,
    (untrusted_redirect_json sampleNetURL sampleKit sampleAmbient sampleFosite ∅
        (untrustedRequester .JWT) (.rfc invalidRequest) _ rfl rfl).2.2.2.2.2.2.1⟩

/-! ## C2 and C3: mode resolution -/

/-- C2: for every requested mode, every set of response types and every
extension registry, the success path and the error path resolve to the same
concrete mode, make the same JWT-secured-or-plain decision and take the same
arm of the delivery switch. -/
theorem resolution_identical (f : Fosite) (rm : ResponseModeType) (responseTypes : List String) :
    resolveModeResponse rm responseTypes = resolveModeError rm responseTypes
    ∧ deliveryResponse f (resolveModeResponse rm responseTypes).1
        = deliveryError f (resolveModeError rm responseTypes).1 rm := by
  cases rm <;> simp [resolveModeResponse, resolveModeError, deliveryResponse, deliveryError]
  cases ExactOne responseTypes "code" <;> simp

/-- C3: the generic JWT mode resolves to JWT-secured-Query exactly when the
response types are the single element `code`, and to JWT-secured-Fragment
for every other list (among them `token`, `id_token`, `code id_token` and
the empty list); every other mode is left unchanged. This holds on both
write paths. -/
theorem jwt_mode_resolution (rm : ResponseModeType) (responseTypes : List String) :
    ((resolveModeResponse .JWT responseTypes).1 = .JWTQuery ↔ responseTypes = ["code"])
    ∧ ((resolveModeResponse .JWT responseTypes).1 = .JWTFragment ↔ responseTypes ≠ ["code"])
    ∧ ((resolveModeError .JWT responseTypes).1 = .JWTQuery ↔ responseTypes = ["code"])
    ∧ ((resolveModeError .JWT responseTypes).1 = .JWTFragment ↔ responseTypes ≠ ["code"])
    ∧ (resolveModeResponse .JWT ["token"]).1 = .JWTFragment
    ∧ (resolveModeResponse .JWT ["id_token"]).1 = .JWTFragment
    ∧ (resolveModeResponse .JWT ["code", "id_token"]).1 = .JWTFragment
    ∧ (resolveModeResponse .JWT []).1 = .JWTFragment
    ∧ (resolveModeResponse rm responseTypes).1
        = (if rm = .JWT then (resolveModeResponse .JWT responseTypes).1 else rm)
    ∧ (resolveModeError rm responseTypes).1
        = (if rm = .JWT then (resolveModeError .JWT responseTypes).1 else rm) := by
  have hone : ExactOne responseTypes "code" = true ↔ responseTypes = ["code"] := by
    rcases responseTypes with _ | ⟨a, _ | ⟨b, t⟩⟩ <;> simp [ExactOne]
  refine ⟨?_, ?_, ?_, ?_, rfl, rfl, rfl, rfl, ?_, ?_⟩
  · rw [← hone]; simp only [resolveModeResponse]; split <;> simp_all
  · rw [Ne, ← hone]; simp only [resolveModeResponse]; split <;> simp_all
  · rw [← hone]; simp only [resolveModeError]; split <;> simp_all
  · rw [Ne, ← hone]; simp only [resolveModeError]; split <;> simp_all
  · cases rm <;> simp [resolveModeResponse]
  · cases rm <;> simp [resolveModeError]

/-! ## C4: cache suppression -/

theorem cacheSuppressed_set {h : Header} (k v : String)
    (hc : CanonicalMIMEHeaderKey k ≠ "Cache-Control") (hp : CanonicalMIMEHeaderKey k ≠ "Pragma")
    (hs : CacheSuppressed h) : CacheSuppressed (h.Set k v) := by
  unfold CacheSuppressed Header.Set
  rw [AList.lookup_insert_ne (Ne.symm hc), AList.lookup_insert_ne (Ne.symm hp)]
  exact hs

theorem cacheSuppressed_add {h : Header} (k v : String)
    (hc : CanonicalMIMEHeaderKey k ≠ "Cache-Control") (hp : CanonicalMIMEHeaderKey k ≠ "Pragma")
    (hs : CacheSuppressed h) : CacheSuppressed (h.Add k v) := by
  unfold CacheSuppressed Header.Add
  rw [AList.lookup_insert_ne (Ne.symm hc), AList.lookup_insert_ne (Ne.symm hp)]
  exact hs

theorem cacheSuppressed_del {h : Header} (k : String)
    (hc : CanonicalMIMEHeaderKey k ≠ "Cache-Control") (hp : CanonicalMIMEHeaderKey k ≠ "Pragma")
    (hs : CacheSuppressed h) : CacheSuppressed (h.Del k) := by
  unfold CacheSuppressed Header.Del
  rw [AList.lookup_erase_ne (Ne.symm hc), AList.lookup_erase_ne (Ne.symm hp)]
  exact hs

theorem cacheSuppressed_init (h : Header) :
    CacheSuppressed ((h.Set "Cache-Control" "no-store").Set "Pragma" "no-cache") := by
  simp [CacheSuppressed, Header.Set, canonical_cacheControl, canonical_pragma,
    AList.lookup_insert_ne]

theorem logSuppressed_append {log : List Event} {e : Event} (hl : LogSuppressed log)
    (he : ∀ h, e.headers? = some h → CacheSuppressed h) : LogSuppressed (log ++ [e]) := by
  intro x hx h hh
  rcases List.mem_append.mp hx with hx | hx
  · exact hl x hx h hh
  · rw [List.mem_singleton] at hx
    subst hx
    exact he h hh

theorem suppressed_headerSet {rw : ResponseWriter} (k v : String)
    (hc : CanonicalMIMEHeaderKey k ≠ "Cache-Control") (hp : CanonicalMIMEHeaderKey k ≠ "Pragma")
    (hs : Suppressed rw) : Suppressed (rw.HeaderSet k v) :=
  ⟨cacheSuppressed_set k v hc hp hs.1, logSuppressed_append hs.2 (by simp [Event.headers?])⟩

theorem suppressed_headerAdd {rw : ResponseWriter} (k v : String)
    (hc : CanonicalMIMEHeaderKey k ≠ "Cache-Control") (hp : CanonicalMIMEHeaderKey k ≠ "Pragma")
    (hs : Suppressed rw) : Suppressed (rw.HeaderAdd k v) :=
  ⟨cacheSuppressed_add k v hc hp hs.1, logSuppressed_append hs.2 (by simp [Event.headers?])⟩

theorem suppressed_headerDel {rw : ResponseWriter} (k : String)
    (hc : CanonicalMIMEHeaderKey k ≠ "Cache-Control") (hp : CanonicalMIMEHeaderKey k ≠ "Pragma")
    (hs : Suppressed rw) : Suppressed (rw.HeaderDel k) :=
  ⟨cacheSuppressed_del k hc hp hs.1, logSuppressed_append hs.2 (by simp [Event.headers?])⟩

theorem suppressed_record {rw : ResponseWriter} (e : Event)
    (he : ∀ h, e.headers? = some h → h = rw.header) (hs : Suppressed rw) :
    Suppressed (rw.record e) :=
  ⟨hs.1, logSuppressed_append hs.2 (fun h hh => he h hh ▸ hs.1)⟩

theorem suppressed_writeHeader {rw : ResponseWriter} (code : Nat) (hs : Suppressed rw) :
    Suppressed (rw.WriteHeader code) :=
  suppressed_record (.writeHeader code rw.header) (by simp [Event.headers?]) hs

theorem suppressed_write {rw : ResponseWriter} (body : String) (hs : Suppressed rw) :
    Suppressed (rw.Write body) :=
  suppressed_record (.write body rw.header) (by simp [Event.headers?]) hs

theorem suppressed_sendRedirect {rw : ResponseWriter} (url : String) (hs : Suppressed rw) :
    Suppressed (sendRedirect url rw) :=
  suppressed_writeHeader 303
    (suppressed_headerSet "Location" url (by decide) (by decide) hs)

theorem suppressed_httpError {rw : ResponseWriter} (error : String) (code : Nat)
    (hs : Suppressed rw) : Suppressed (httpError rw error code) :=
  suppressed_write _ (suppressed_writeHeader code
    (suppressed_headerSet "X-Content-Type-Options" "nosniff" (by decide) (by decide)
      (suppressed_headerSet "Content-Type" "text/plain; charset=utf-8" (by decide) (by decide)
        (suppressed_headerDel "Content-Length" (by decide) (by decide) hs))))

theorem suppressed_handleJSON (ek : ErrorKit) (f : Fosite) {rw : ResponseWriter}
    (e : RFC6749Error) (hs : Suppressed rw) :
    Suppressed (handleWriteAuthorizeErrorJSON ek f rw e) := by
  have hct := suppressed_headerSet "Content-Type" "application/json;charset=UTF-8"
    (by decide) (by decide) hs
  unfold handleWriteAuthorizeErrorJSON
  simp only []
  split
  · split <;> exact suppressed_httpError _ _ hct
  · exact suppressed_write _ (suppressed_writeHeader _ hct)

theorem suppressed_deliverQuery (nu : NetURL) (redir : URL) (p : Values) {rw : ResponseWriter}
    (hs : Suppressed rw) : Suppressed (deliverQuery nu redir p rw) :=
  suppressed_sendRedirect _ hs

theorem suppressed_deliverFragment (nu : NetURL) (redir : URL) (p : Values)
    {rw : ResponseWriter} (hs : Suppressed rw) : Suppressed (deliverFragment nu redir p rw) :=
  suppressed_sendRedirect _ hs

theorem suppressed_deliverFormPost (nu : NetURL) (redir : URL) (p : Values)
    {rw : ResponseWriter} (hs : Suppressed rw) : Suppressed (deliverFormPost nu redir p rw) :=
  suppressed_record _ (by simp [Event.headers?])
    (suppressed_headerAdd "Content-Type" "text/html;charset=UTF-8" (by decide) (by decide) hs)

theorem suppressed_getParameters (j : Bool) (f : Fosite) (amb : Ambient)
    (ar : AuthorizeRequester) (params : Values) {rw : ResponseWriter} (hs : Suppressed rw) :
    Suppressed (getParameters j f amb ar params rw).1 := by
  unfold getParameters
  cases j
  · exact hs
  · exact suppressed_record _ (by simp [Event.headers?]) hs

theorem suppressed_afterParameters (ek : ErrorKit) (f : Fosite)
    (classify : GoError → RFC6749Error) (deliver : Values → ResponseWriter → ResponseWriter)
    (hd : ∀ p rw, Suppressed rw → Suppressed (deliver p rw))
    (res : ResponseWriter × Except String (Option Values × Option GoError))
    (hs : Suppressed res.1) : Suppressed (afterParameters ek f classify deliver res) := by
  rcases res with ⟨rw, msg | ⟨po, _ | e⟩⟩
  · exact suppressed_record _ (by simp [Event.headers?]) hs
  · exact hd _ _ hs
  · exact suppressed_handleJSON ek f _ hs

theorem logSuppressed_copyHeaders (rh : Header) (rw : ResponseWriter)
    (hl : LogSuppressed rw.log) : LogSuppressed (copyHeaders rh rw).log := by
  unfold copyHeaders
  generalize rh.entries = l
  induction l generalizing rw with
  | nil => exact hl
  | cons e t ih =>
    rw [List.foldl_cons]
    exact ih _ (logSuppressed_append hl (by simp [Event.headers?]))

theorem suppressed_response_start (rh h0 : Header) :
    Suppressed (((copyHeaders rh ⟨h0, []⟩).HeaderSet "Cache-Control" "no-store").HeaderSet
      "Pragma" "no-cache") :=
  ⟨cacheSuppressed_init _,
    logSuppressed_append
      (logSuppressed_append
        (logSuppressed_copyHeaders rh ⟨h0, []⟩ (by intro e he; simp at he))
        (by simp [Event.headers?]))
      (by simp [Event.headers?])⟩

theorem suppressed_error_start (h0 : Header) :
    Suppressed (((ResponseWriter.mk h0 []).HeaderSet "Cache-Control" "no-store").HeaderSet
      "Pragma" "no-cache") :=
  ⟨cacheSuppressed_init _,
    logSuppressed_append
      (logSuppressed_append (by intro e he; simp at he) (by simp [Event.headers?]))
      (by simp [Event.headers?])⟩

/-- C4: for every call of `WriteAuthorizeResponse` and of `WriteAuthorizeError`
(any mode, any outcome of parameter generation, any JSON rendering, any
headers already on the writer, any custom headers of the payload), every
transport operation of the call was issued with `Cache-Control` holding
exactly `no-store` and `Pragma` exactly `no-cache`, and so is the header map
when the call returns. -/
theorem cache_suppression_always (nu : NetURL) (ek : ErrorKit) (amb : Ambient) (f : Fosite)
    (h0 : Header) (ar : AuthorizeRequester) (resp : AuthorizeResponder) (err : GoError) :
    (CacheSuppressed (WriteAuthorizeResponse nu ek amb f ⟨h0, []⟩ ar resp).header
      ∧ LogSuppressed (WriteAuthorizeResponse nu ek amb f ⟨h0, []⟩ ar resp).log)
    ∧ (CacheSuppressed (WriteAuthorizeError nu ek amb f ⟨h0, []⟩ ar err).header
      ∧ LogSuppressed (WriteAuthorizeError nu ek amb f ⟨h0, []⟩ ar err).log) := by
  constructor
  · have hs := suppressed_response_start resp.Header h0
    show Suppressed _
    unfold WriteAuthorizeResponse
    simp only []
    split
    · exact suppressed_afterParameters ek f _ _ (fun p rw => suppressed_deliverFormPost nu _ p) _
        (suppressed_getParameters _ f amb ar _ hs)
    · exact suppressed_afterParameters ek f _ _ (fun p rw => suppressed_deliverQuery nu _ p) _
        (suppressed_getParameters _ f amb ar _ hs)
    · exact suppressed_afterParameters ek f _ _ (fun p rw => suppressed_deliverFragment nu _ p) _
        (suppressed_getParameters _ f amb ar _ hs)
    · exact suppressed_record _ (by simp [Event.headers?]) hs
    · exact hs
  · have hs := suppressed_error_start h0
    show Suppressed _
    unfold WriteAuthorizeError
    simp only []
    split
    · exact suppressed_handleJSON ek f _ hs
    · split
      · exact suppressed_afterParameters ek f _ _ (fun p rw => suppressed_deliverFormPost nu _ p)
          _ (suppressed_getParameters _ f amb ar _ hs)
      · exact suppressed_afterParameters ek f _ _ (fun p rw => suppressed_deliverQuery nu _ p) _
          (suppressed_getParameters _ f amb ar _ hs)
      · exact suppressed_afterParameters ek f _ _ (fun p rw => suppressed_deliverFragment nu _ p)
          _ (suppressed_getParameters _ f amb ar _ hs)
      · exact suppressed_record _ (by simp [Event.headers?]) hs
      · exact hs

/-! ## C5: classification of a generator failure on the error path -/

/-- C5, the code at the failing input: on the error path a session-less
request makes the JARM generator fail; the query and fragment arms then write
the `server_error` classification, the form-post arm writes whatever
`ErrorToRFC6749Error` makes of the generator's error. -/
theorem generator_failure_formPost_not_server_error :
    bodies (WriteAuthorizeError sampleNetURL sampleKit sampleAmbient sampleFosite ⟨∅, []⟩
        (sessionlessRequester .JWTQuery) (.rfc invalidRequest)).log
        = ["\x7b\"error\":\"server_error\"\x7d"]
    ∧ bodies (WriteAuthorizeError sampleNetURL sampleKit sampleAmbient sampleFosite ⟨∅, []⟩
        (sessionlessRequester .JWTFragment) (.rfc invalidRequest)).log
        = ["\x7b\"error\":\"server_error\"\x7d"]
    ∧ bodies (WriteAuthorizeError sampleNetURL sampleKit sampleAmbient sampleFosite ⟨∅, []⟩
        (sessionlessRequester .JWTFormPost) (.rfc invalidRequest)).log
        = ["\x7b\"error\":\"error\"\x7d"]
    ∧ bodies (WriteAuthorizeResponse sampleNetURL sampleKit sampleAmbient sampleFosite ⟨∅, []⟩
        (sessionlessRequester .JWTFormPost) sampleResponder).log
        = ["\x7b\"error\":\"server_error\"\x7d"] :=
  ⟨rfl, rfl, rfl, rfl⟩

/-! ## C6: the generator writes into a nil map -/

/-- The fault does not depend on the input chosen: every session with a claim
capability and every parameter collection with at least one key stop the
generator the same way. -/
theorem generator_faults_of_nonempty (config : Configurator) (amb : Ambient) (client : Client)
    (s : SessionValue) (params : Values)
    (hcap : s.idToken.isSome = true ∨ s.jwtContainer.isSome = true)
    (hne : params.entries ≠ []) :
    GenerateTokenFromParameters config amb client (some s) params
      = .error "assignment to entry in nil map" := by
  obtain ⟨e, t, he⟩ := List.exists_cons_of_ne_nil hne
  have hfold : ∀ (i : String) (a : List String) (j : String) (t1 t2 : Time),
      params.entries.foldlM (fun c e => assignExtra c e.1 (.str (params.Get e.1)))
          ({ Issuer := i, Audience := a, JTI := j, IssuedAt := t1, ExpiresAt := t2,
             Extra := none } : JARMClaims)
        = (.error "assignment to entry in nil map" : Except String JARMClaims) := by
    intro i a j t1 t2
    rw [he, List.foldlM_cons]
    rfl
  unfold GenerateTokenFromParameters
  rcases hi : s.idToken with _ | hc1
  · rcases hj : s.jwtContainer with _ | hc2
    · simp [hi, hj] at hcap
    · simp only [hfold, hi, hj]
  · simp only [hfold, hi]

/-- C6, the code at the failing input: for every configuration (signer
included), clock and client, a session with a claim capability and the one
parameter `code=abc` stop `GenerateTokenFromParameters` with the run-time
fault of an assignment into the nil `Extra` map; the signer is never reached. -/
theorem generator_faults_on_parameters (config : Configurator) (amb : Ambient)
    (client : Client) :
    GenerateTokenFromParameters config amb client sampleSession
      (AList.singleton "code" ["abc"]) = .error "assignment to entry in nil map" :=
  rfl

/-! ## C7: the round trip through the claim mapping -/

/-- A field that only the key `key` touches is, after the loop of `FromMap`,
what the entry under `key` made of it. -/
theorem fromMap_fold_field {α : Type} (π : JARMClaims → α) (key : String)
    (g : Value → α → α)
    (hne : ∀ c k v, k ≠ key → π (JARMClaims.fromMapStep c k v) = π c)
    (heq : ∀ c v, π (JARMClaims.fromMapStep c key v) = g v (π c))
    (l : List (Σ _ : String, Value)) (hnd : l.NodupKeys) (c0 : JARMClaims) :
    π (l.foldl (fun c e => JARMClaims.fromMapStep c e.1 e.2) c0)
      = match l.dlookup key with
        | some v => g v (π c0)
        | none => π c0 := by
  induction l generalizing c0 with
  | nil => simp
  | cons e t ih =>
    obtain ⟨k, v⟩ := e
    rw [List.nodupKeys_cons] at hnd
    rw [List.foldl_cons, ih hnd.2]
    by_cases hk : k = key
    · subst hk
      have hnone : List.dlookup k t = none := List.dlookup_eq_none.mpr hnd.1
      simp [hnone, heq]
    · have hk2 : key ≠ (⟨k, v⟩ : Σ _ : String, Value).1 := fun h => hk h.symm
      rw [List.dlookup_cons_ne t ⟨k, v⟩ hk2, hne _ _ _ hk]

theorem fromMap_field {α : Type} (π : JARMClaims → α) (key : String) (g : Value → α → α)
    (hne : ∀ c k v, k ≠ key → π (JARMClaims.fromMapStep c k v) = π c)
    (heq : ∀ c v, π (JARMClaims.fromMapStep c key v) = g v (π c))
    (c : JARMClaims) (m : MapClaims) :
    π (c.FromMap m) = match m.lookup key with
      | some v => g v (π { c with Extra := some ∅ })
      | none => π { c with Extra := some ∅ } :=
  fromMap_fold_field π key g hne heq m.entries m.nodupKeys _

theorem fromMap_JTI (c : JARMClaims) (m : MapClaims) :
    (c.FromMap m).JTI = match m.lookup "jti" with
      | some (.str s) => s
      | _ => c.JTI := by
  rw [fromMap_field (fun c => c.JTI) "jti" (fun v old => match v with | .str s => s | _ => old)]
  · cases m.lookup "jti" with
    | none => rfl
    | some v => cases v <;> rfl
  · intro c k v hk
    unfold JARMClaims.fromMapStep
    simp only [hk, if_false]
    repeat' split
    all_goals rfl
  · intro c v
    cases v <;> rfl

theorem fromMap_Issuer (c : JARMClaims) (m : MapClaims) :
    (c.FromMap m).Issuer = match m.lookup "iss" with
      | some (.str s) => s
      | _ => c.Issuer := by
  rw [fromMap_field (fun c => c.Issuer) "iss"
    (fun v old => match v with | .str s => s | _ => old)]
  · cases m.lookup "iss" with
    | none => rfl
    | some v => cases v <;> rfl
  · intro c k v hk
    unfold JARMClaims.fromMapStep
    simp only [hk, if_false]
    repeat' split
    all_goals rfl
  · intro c v
    cases v <;> rfl

theorem fromMap_Audience (c : JARMClaims) (m : MapClaims) :
    (c.FromMap m).Audience = match m.lookup "aud" with
      | some (.str s) => [s]
      | some (.strs l) => l
      | _ => c.Audience := by
  rw [fromMap_field (fun c => c.Audience) "aud"
    (fun v old => match v with | .str s => [s] | .strs l => l | _ => old)]
  · cases m.lookup "aud" with
    | none => rfl
    | some v => cases v <;> rfl
  · intro c k v hk
    unfold JARMClaims.fromMapStep
    simp only [hk, if_false]
    repeat' split
    all_goals rfl
  · intro c v
    cases v <;> rfl

theorem fromMap_IssuedAt (c : JARMClaims) (m : MapClaims) :
    (c.FromMap m).IssuedAt = match m.lookup "iat" with
      | some v => toTime v c.IssuedAt
      | none => c.IssuedAt := by
  rw [fromMap_field (fun c => c.IssuedAt) "iat" (fun v old => toTime v old)]
  · intro c k v hk
    unfold JARMClaims.fromMapStep
    simp only [hk, if_false]
    repeat' split
    all_goals rfl
  · intro c v
    rfl

theorem fromMap_ExpiresAt (c : JARMClaims) (m : MapClaims) :
    (c.FromMap m).ExpiresAt = match m.lookup "exp" with
      | some v => toTime v c.ExpiresAt
      | none => c.ExpiresAt := by
  rw [fromMap_field (fun c => c.ExpiresAt) "exp" (fun v old => toTime v old)]
  · intro c k v hk
    unfold JARMClaims.fromMapStep
    simp only [hk, if_false]
    repeat' split
    all_goals rfl
  · intro c v
    rfl

theorem fromMapStep_extra_reserved (c : JARMClaims) (k : String) (v : Value)
    (hk : reservedKey k = true) : (JARMClaims.fromMapStep c k v).Extra = c.Extra := by
  unfold JARMClaims.fromMapStep
  repeat' split
  all_goals first
    | rfl
    | (simp [reservedKey] at hk; simp_all)

theorem fromMapStep_extra_other (c : JARMClaims) (k : String) (v : Value)
    (hk : reservedKey k = false) :
    (JARMClaims.fromMapStep c k v).Extra = some ((c.Extra.getD ∅).insert k v) := by
  simp only [reservedKey, Bool.or_eq_false_iff, beq_eq_false_iff_ne, ne_eq] at hk
  obtain ⟨⟨⟨⟨h1, h2⟩, h3⟩, h4⟩, h5⟩ := hk
  simp [JARMClaims.fromMapStep, h1, h2, h3, h4, h5]

theorem fromMap_Extra (c : JARMClaims) (m : MapClaims) (k : String) :
    ((c.FromMap m).Extra.getD ∅).lookup k = if reservedKey k then none else m.lookup k := by
  cases hr : reservedKey k with
  | true =>
    rw [fromMap_field (fun c => (c.Extra.getD ∅).lookup k) k (fun _ old => old)]
    · cases m.lookup k <;> simp
    · intro c k2 v hk2
      cases hr2 : reservedKey k2 with
      | true => simp only [fromMapStep_extra_reserved c k2 v hr2]
      | false =>
        simp only [fromMapStep_extra_other c k2 v hr2, Option.getD_some]
        exact AList.lookup_insert_ne (fun h => hk2 h.symm)
    · intro c v
      simp only [fromMapStep_extra_reserved c k v hr]
  | false =>
    rw [fromMap_field (fun c => (c.Extra.getD ∅).lookup k) k (fun v _ => some v)]
    · cases m.lookup k <;> simp
    · intro c k2 v hk2
      cases hr2 : reservedKey k2 with
      | true => simp only [fromMapStep_extra_reserved c k2 v hr2]
      | false =>
        simp only [fromMapStep_extra_other c k2 v hr2, Option.getD_some]
        exact AList.lookup_insert_ne (fun h => hk2 h.symm)
    · intro c v
      simp only [fromMapStep_extra_other c k v hr, Option.getD_some]
      exact AList.lookup_insert _

theorem copy_fold_lookup (k : String) (l : List (Σ _ : String, Value)) (hnd : l.NodupKeys)
    (acc : MapClaims) :
    (l.foldl (fun r e => r.insert e.1 e.2) acc).lookup k
      = match l.dlookup k with
        | some v => some v
        | none => acc.lookup k := by
  induction l generalizing acc with
  | nil => simp
  | cons e t ih =>
    obtain ⟨k2, v⟩ := e
    rw [List.nodupKeys_cons] at hnd
    rw [List.foldl_cons, ih hnd.2]
    by_cases hk : k2 = k
    · subst hk
      have hnone : List.dlookup k2 t = none := List.dlookup_eq_none.mpr hnd.1
      simp [hnone]
    · have hk2 : k ≠ (⟨k2, v⟩ : Σ _ : String, Value).1 := fun h => hk h.symm
      rw [List.dlookup_cons_ne t ⟨k2, v⟩ hk2, AList.lookup_insert_ne hk2]

theorem copy_lookup (e : Option MapClaims) (k : String) :
    (Copy e).lookup k = (e.getD ∅).lookup k := by
  cases e with
  | none => rfl
  | some m =>
    simp only [Copy, Option.getD_some]
    rw [copy_fold_lookup k m.entries m.nodupKeys ∅]
    show (match m.lookup k with | some v => some v | none => (∅ : MapClaims).lookup k) = _
    cases m.lookup k <;> simp

theorem toMap_iss (uuid : String) (c : JARMClaims) :
    (c.ToMap uuid).lookup "iss" = if c.Issuer = "" then none else some (.str c.Issuer) := by
  unfold JARMClaims.ToMap
  simp only []
  split_ifs <;> simp_all [AList.lookup_insert_ne, AList.lookup_erase_ne]

theorem toMap_jti (uuid : String) (c : JARMClaims) :
    (c.ToMap uuid).lookup "jti" = some (.str (if c.JTI = "" then uuid else c.JTI)) := by
  unfold JARMClaims.ToMap
  simp only []
  split_ifs <;> simp_all [AList.lookup_insert_ne, AList.lookup_erase_ne]

theorem toMap_aud (uuid : String) (c : JARMClaims) :
    (c.ToMap uuid).lookup "aud" = some (.strs c.Audience) := by
  unfold JARMClaims.ToMap
  simp only []
  split_ifs <;> simp_all [AList.lookup_insert_ne, AList.lookup_erase_ne]

theorem toMap_iat (uuid : String) (c : JARMClaims) :
    (c.ToMap uuid).lookup "iat"
      = if c.IssuedAt.IsZero then none else some (.int64 c.IssuedAt.Unix) := by
  unfold JARMClaims.ToMap
  simp only []
  split_ifs <;> simp_all [AList.lookup_insert_ne, AList.lookup_erase_ne]

theorem toMap_exp (uuid : String) (c : JARMClaims) :
    (c.ToMap uuid).lookup "exp"
      = if c.ExpiresAt.IsZero then none else some (.int64 c.ExpiresAt.Unix) := by
  unfold JARMClaims.ToMap
  simp only []
  split_ifs <;> simp_all [AList.lookup_insert_ne, AList.lookup_erase_ne]

theorem toMap_other (uuid : String) (c : JARMClaims) (k : String)
    (hk : reservedKey k = false) :
    (c.ToMap uuid).lookup k = (c.Extra.getD ∅).lookup k := by
  simp only [reservedKey, Bool.or_eq_false_iff, beq_eq_false_iff_ne, ne_eq] at hk
  obtain ⟨⟨⟨⟨h1, h2⟩, h3⟩, h4⟩, h5⟩ := hk
  unfold JARMClaims.ToMap
  simp only []
  split_ifs <;>
    simp [AList.lookup_insert_ne, AList.lookup_erase_ne, h1, h2, h3, h4, h5, copy_lookup]

/-- C7, counterexample: a claims value whose `Extra` holds an entry under
`iss` does not come back: the round trip drops that entry, so `Extra` is not
reproduced. -/
theorem roundtrip_counterexample :
    (shadowingClaims.Extra.getD ∅).lookup "iss" = some (.str "shadow")
    ∧ (((JARMClaims.fresh.FromMap (shadowingClaims.ToMap "u")).Extra.getD ∅).lookup "iss" = none)
    ∧ (JARMClaims.fresh.FromMap (shadowingClaims.ToMap "u")).Extra ≠ shadowingClaims.Extra
    ∧ (JARMClaims.fresh.FromMap (bareClaims.ToMap "u")).IssuedAt ≠ bareClaims.IssuedAt := by
  refine ⟨rfl, rfl, ?_, by decide⟩
  intro h
  have h2 := congrArg (fun e : Option MapClaims => (e.getD ∅).lookup "iss") h
  exact Option.noConfusion (h2 : (none : Option Value) = some (Value.str "shadow"))

/-- C7, amended: for every claims value `c`, `FromMap` of `ToMap(c)` on a
fresh value reproduces Issuer and Audience, reproduces JTI when it is
non-empty and holds the generated identifier otherwise, reproduces each
timestamp to the second (a zero timestamp stays zero, a sub-second part is
dropped), and reproduces `Extra` under every key other than `jti`, `iss`,
`aud`, `iat` and `exp`; under those five keys the resulting `Extra` holds
nothing. -/
theorem roundtrip_fields (uuid : String) (c : JARMClaims) :
    (JARMClaims.fresh.FromMap (c.ToMap uuid)).Issuer = c.Issuer
    ∧ (JARMClaims.fresh.FromMap (c.ToMap uuid)).Audience = c.Audience
    ∧ (JARMClaims.fresh.FromMap (c.ToMap uuid)).JTI = (if c.JTI = "" then uuid else c.JTI)
    ∧ (JARMClaims.fresh.FromMap (c.ToMap uuid)).IssuedAt
        = (if c.IssuedAt.IsZero then c.IssuedAt else { c.IssuedAt with nsec := 0 })
    ∧ (JARMClaims.fresh.FromMap (c.ToMap uuid)).ExpiresAt
        = (if c.ExpiresAt.IsZero then c.ExpiresAt else { c.ExpiresAt with nsec := 0 })
    ∧ ∀ k, ((JARMClaims.fresh.FromMap (c.ToMap uuid)).Extra.getD ∅).lookup k
        = if reservedKey k then none else (c.Extra.getD ∅).lookup k := by
  have hzero : ∀ t : Time, t.IsZero = true → Time.zero = t := by
    intro t ht
    obtain ⟨s, n⟩ := t
    simp [Time.IsZero] at ht
    simp [Time.zero, ht.1, ht.2]
  refine ⟨?_, ?_, ?_, ?_, ?_, ?_⟩
  · rw [fromMap_Issuer, toMap_iss]
    split_ifs with h <;> simp [JARMClaims.fresh, h]
  · rw [fromMap_Audience, toMap_aud]
  · rw [fromMap_JTI, toMap_jti]
  · rw [fromMap_IssuedAt, toMap_iat]
    split_ifs with h
    · exact hzero _ h
    · rfl
  · rw [fromMap_ExpiresAt, toMap_exp]
    split_ifs with h
    · exact hzero _ h
    · rfl
  · intro k
    rw [fromMap_Extra]
    cases hk : reservedKey k with
    | true => rfl
    | false => simp [toMap_other uuid c k hk]

/-! ## C8: query delivery -/

theorem mergeQuery_fold_lookup (g : String → String) (l : List (Σ _ : String, List String))
    (q : Values) (k : String) :
    (l.foldl (fun q e => Values.Set q e.1 (g e.1)) q).lookup k
      = if k ∈ l.keys then some [g k] else q.lookup k := by
  induction l generalizing q with
  | nil => simp
  | cons e t ih =>
    rw [List.foldl_cons, ih, List.keys_cons]
    by_cases hk : k = e.1
    · subst hk
      simp [Values.Set]
    · simp [hk, Values.Set, AList.lookup_insert_ne hk]

theorem mergeQuery_lookup (q p : Values) (k : String) :
    (mergeQuery q p).lookup k = if k ∈ p.keys then some [p.Get k] else q.lookup k :=
  mergeQuery_fold_lookup p.Get p.entries q k

theorem dlookup_filter_key (P : String → Bool) (l : List (Σ _ : String, List String))
    (k : String) :
    List.dlookup k (l.filter fun e => P e.1) = if P k then List.dlookup k l else none := by
  induction l with
  | nil => simp
  | cons e t ih =>
    obtain ⟨a, b⟩ := e
    by_cases hk : k = a
    · subst hk
      cases hP : P k with
      | true => simp [List.filter_cons, hP]
      | false => simp [List.filter_cons, hP, ih]
    · have hne : k ≠ (⟨a, b⟩ : Σ _ : String, List String).1 := hk
      cases hP : P a with
      | true =>
        rw [List.filter_cons]
        simp only [hP, if_true]
        rw [List.dlookup_cons_ne _ _ hne, List.dlookup_cons_ne _ _ hne, ih]
      | false =>
        rw [List.filter_cons]
        simp only [hP, Bool.false_eq_true, if_false]
        rw [List.dlookup_cons_ne _ _ hne, ih]

theorem dlookup_map_key (g : String → String) (l : List (Σ _ : String, List String))
    (k : String) :
    List.dlookup k (l.map fun e => (⟨e.1, [g e.1]⟩ : Σ _ : String, List String))
      = if k ∈ l.keys then some [g k] else none := by
  induction l with
  | nil => simp
  | cons e t ih =>
    obtain ⟨a, b⟩ := e
    rw [List.map_cons, List.keys_cons]
    by_cases hk : k = a
    · subst hk
      simp
    · have hne : k ≠ (⟨a, [g a]⟩ : Σ _ : String, List String).1 := hk
      rw [List.dlookup_cons_ne _ _ hne, ih]
      simp [hk]

theorem keys_map_key (g : String → String) (l : List (Σ _ : String, List String)) :
    (l.map fun e => (⟨e.1, [g e.1]⟩ : Σ _ : String, List String)).keys = l.keys := by
  simp [List.keys, List.map_map, Function.comp_def]

theorem entryPairs_map_key (g : String → String) (l : List (Σ _ : String, List String)) :
    Values.entryPairs (l.map fun e => (⟨e.1, [g e.1]⟩ : Σ _ : String, List String))
      = l.keys.map fun k => (k, g k) := by
  induction l with
  | nil => rfl
  | cons e t ih =>
    simp only [Values.entryPairs, List.map_cons, List.flatMap_cons, List.keys_cons] at ih ⊢
    rw [ih]
    rfl

/-- The merged query, as a multiset of entries: one single-valued entry for
each key of the parameters, and the entries of the original query under the
other keys. -/
theorem mergeQuery_entries_perm (q p : Values) :
    (mergeQuery q p).entries.Perm
      ((p.entries.map fun e => (⟨e.1, [p.Get e.1]⟩ : Σ _ : String, List String))
        ++ q.entries.filter fun e => e.1 ∉ p.keys) := by
  have hnd : ((p.entries.map fun e => (⟨e.1, [p.Get e.1]⟩ : Σ _ : String, List String))
      ++ q.entries.filter fun e => e.1 ∉ p.keys).NodupKeys := by
    unfold List.NodupKeys
    have hkeys : ∀ a b : List (Σ _ : String, List String), (a ++ b).keys = a.keys ++ b.keys := by
      intro a b
      simp [List.keys]
    rw [hkeys, keys_map_key, List.nodup_append]
    refine ⟨p.nodupKeys, (List.NodupKeys.sublist (List.filter_sublist _) q.nodupKeys), ?_⟩
    intro a ha hb
    rw [List.mem_keys] at hb
    obtain ⟨b, hb⟩ := hb
    have := (List.mem_filter.mp hb).2
    simp only [decide_eq_true_eq] at this
    exact this ha
  refine List.lookup_ext (mergeQuery q p).nodupKeys hnd ?_
  intro k v
  have h1 : List.dlookup k (mergeQuery q p).entries
      = if k ∈ p.keys then some [p.Get k] else q.lookup k := mergeQuery_lookup q p k
  rw [h1, List.dlookup_append, dlookup_map_key,
    dlookup_filter_key (fun a => decide (a ∉ p.keys))]
  by_cases hk : k ∈ p.keys
  · have hk2 : k ∈ p.entries.keys := hk
    simp [hk, hk2]
  · have hk2 : k ∉ p.entries.keys := hk
    simp [hk, hk2, AList.lookup]

theorem mergeQuery_pairs_perm (q p : Values) :
    (mergeQuery q p).pairs.Perm
      ((p.keys.map fun k => (k, p.Get k))
        ++ Values.entryPairs (q.entries.filter fun e => e.1 ∉ p.keys)) := by
  have h := List.Perm.flatMap_right
    (fun e : (Σ _ : String, List String) => e.2.map fun x => (e.1, x))
    (mergeQuery_entries_perm q p)
  rw [List.flatMap_append] at h
  have h2 := entryPairs_map_key p.Get p.entries
  unfold Values.entryPairs at h2
  rw [h2] at h
  exact h

/-! ## Runs of the two write paths -/

theorem getParameters_writer (j : Bool) (f : Fosite) (amb : Ambient) (ar : AuthorizeRequester)
    (params : Values) (rw : ResponseWriter) :
    (getParameters j f amb ar params rw).1
      = { header := rw.header, log := rw.log ++ generatorRecord j params } := by
  cases j <;> simp [getParameters, generatorRecord, ResponseWriter.record]

theorem afterParameters_ok (ek : ErrorKit) (f : Fosite) (classify : GoError → RFC6749Error)
    (deliver : Values → ResponseWriter → ResponseWriter)
    (res : ResponseWriter × Except String (Option Values × Option GoError))
    (po : Option Values) (h : res.2 = .ok (po, none)) :
    afterParameters ek f classify deliver res = deliver (po.getD ∅) res.1 := by
  obtain ⟨rw, r⟩ := res
  simp only at h
  subst h
  rfl

theorem afterParameters_error (ek : ErrorKit) (f : Fosite) (classify : GoError → RFC6749Error)
    (deliver : Values → ResponseWriter → ResponseWriter)
    (res : ResponseWriter × Except String (Option Values × Option GoError))
    (po : Option Values) (e : GoError) (h : res.2 = .ok (po, some e)) :
    afterParameters ek f classify deliver res
      = handleWriteAuthorizeErrorJSON ek f res.1 (classify e) := by
  obtain ⟨rw, r⟩ := res
  simp only at h
  subst h
  rfl

theorem delivery_response_query (f : Fosite) (rm : ResponseModeType)
    (h : rm = .Query ∨ rm = .Default ∨ rm = .JWTQuery) : deliveryResponse f rm = .query := by
  rcases h with h | h | h <;> subst h <;> rfl

theorem delivery_error_query (f : Fosite) (rm requested : ResponseModeType)
    (h : rm = .Query ∨ rm = .Default ∨ rm = .JWTQuery) :
    deliveryError f rm requested = .query := by
  rcases h with h | h | h <;> subst h <;> rfl

theorem delivery_response_fragment (f : Fosite) (rm : ResponseModeType)
    (h : rm = .Fragment ∨ rm = .JWTFragment) : deliveryResponse f rm = .fragment := by
  rcases h with h | h <;> subst h <;> rfl

theorem delivery_error_fragment (f : Fosite) (rm requested : ResponseModeType)
    (h : rm = .Fragment ∨ rm = .JWTFragment) : deliveryError f rm requested = .fragment := by
  rcases h with h | h <;> subst h <;> rfl

theorem response_run (nu : NetURL) (ek : ErrorKit) (amb : Ambient) (f : Fosite)
    (rw : ResponseWriter) (ar : AuthorizeRequester) (resp : AuthorizeResponder) :
    WriteAuthorizeResponse nu ek amb f rw ar resp =
      match deliveryResponse f (resolveModeResponse ar.ResponseMode ar.ResponseTypes).1 with
      | .formPost =>
        afterParameters ek f (serverError ek) (deliverFormPost nu ar.RedirectURI)
          (getParameters (resolveModeResponse ar.ResponseMode ar.ResponseTypes).2 f amb ar
            resp.Parameters (responseStart rw resp))
      | .query =>
        afterParameters ek f (serverError ek) (deliverQuery nu ar.RedirectURI)
          (getParameters (resolveModeResponse ar.ResponseMode ar.ResponseTypes).2 f amb ar
            resp.Parameters (responseStart rw resp))
      | .fragment =>
        afterParameters ek f (serverError ek) (deliverFragment nu ar.RedirectURI)
          (getParameters (resolveModeResponse ar.ResponseMode ar.ResponseTypes).2 f amb ar
            resp.Parameters (responseStart rw resp))
      | .handler =>
        (responseStart rw resp).record (.handlerWriteResponse ar resp (responseStart rw resp).header)
      | .nothing => responseStart rw resp :=
  rfl

theorem error_run (nu : NetURL) (ek : ErrorKit) (amb : Ambient) (f : Fosite)
    (rw : ResponseWriter) (ar : AuthorizeRequester) (err : GoError)
    (hvalid : ar.IsRedirectURIValid = true) :
    WriteAuthorizeError nu ek amb f rw ar err =
      match deliveryError f (resolveModeError ar.ResponseMode ar.ResponseTypes).1
          ar.ResponseMode with
      | .formPost =>
        afterParameters ek f (ErrorToRFC6749Error ek) (deliverFormPost nu ar.RedirectURI)
          (getParameters (resolveModeError ar.ResponseMode ar.ResponseTypes).2 f amb ar
            (errorParameters ek f ar err) (errorStart rw))
      | .query =>
        afterParameters ek f (serverError ek) (deliverQuery nu ar.RedirectURI)
          (getParameters (resolveModeError ar.ResponseMode ar.ResponseTypes).2 f amb ar
            (errorParameters ek f ar err) (errorStart rw))
      | .fragment =>
        afterParameters ek f (serverError ek) (deliverFragment nu ar.RedirectURI)
          (getParameters (resolveModeError ar.ResponseMode ar.ResponseTypes).2 f amb ar
            (errorParameters ek f ar err) (errorStart rw))
      | .handler => (errorStart rw).record (.handlerWriteError ar err (errorStart rw).header)
      | .nothing => errorStart rw := by
  unfold WriteAuthorizeError
  simp only [hvalid, Bool.not_true, Bool.false_eq_true, if_false]
  rfl

theorem sendRedirect_eq (url : String) (rw : ResponseWriter) :
    sendRedirect url rw =
      { header := rw.header.Set "Location" url
        log := rw.log ++
          [.headerSet "Location" url, .writeHeader 303 (rw.header.Set "Location" url)] } := by
  simp [sendRedirect, ResponseWriter.HeaderSet, ResponseWriter.WriteHeader, canonical_location]

theorem header_set_location (h : Header) (url : String) :
    (h.Set "Location" url).lookup "Location" = some [url] := by
  simp [Header.Set, canonical_location]

theorem resolveMode_same (rm : ResponseModeType) (responseTypes : List String) :
    resolveModeError rm responseTypes = resolveModeResponse rm responseTypes := by
  cases rm <;> rfl

theorem response_query_run (nu : NetURL) (ek : ErrorKit) (amb : Ambient) (f : Fosite)
    (rw : ResponseWriter) (ar : AuthorizeRequester) (resp : AuthorizeResponder)
    (po : Option Values)
    (hm : (resolveModeResponse ar.ResponseMode ar.ResponseTypes).1 = .Query
      ∨ (resolveModeResponse ar.ResponseMode ar.ResponseTypes).1 = .Default
      ∨ (resolveModeResponse ar.ResponseMode ar.ResponseTypes).1 = .JWTQuery)
    (hg : generate (resolveModeResponse ar.ResponseMode ar.ResponseTypes).2 f amb ar
      resp.Parameters = .ok (po, none)) :
    WriteAuthorizeResponse nu ek amb f rw ar resp =
      deliverQuery nu ar.RedirectURI (po.getD ∅)
        { header := (responseStart rw resp).header
          log := (responseStart rw resp).log
            ++ generatorRecord (resolveModeResponse ar.ResponseMode ar.ResponseTypes).2
              resp.Parameters } := by
  rw [response_run, delivery_response_query f _ hm]
  simp only []
  rw [afterParameters_ok ek f _ _ _ po hg, getParameters_writer]

theorem error_query_run (nu : NetURL) (ek : ErrorKit) (amb : Ambient) (f : Fosite)
    (rw : ResponseWriter) (ar : AuthorizeRequester) (err : GoError) (po : Option Values)
    (hvalid : ar.IsRedirectURIValid = true)
    (hm : (resolveModeResponse ar.ResponseMode ar.ResponseTypes).1 = .Query
      ∨ (resolveModeResponse ar.ResponseMode ar.ResponseTypes).1 = .Default
      ∨ (resolveModeResponse ar.ResponseMode ar.ResponseTypes).1 = .JWTQuery)
    (hg : generate (resolveModeResponse ar.ResponseMode ar.ResponseTypes).2 f amb ar
      (errorParameters ek f ar err) = .ok (po, none)) :
    WriteAuthorizeError nu ek amb f rw ar err =
      deliverQuery nu ar.RedirectURI (po.getD ∅)
        { header := (errorStart rw).header
          log := (errorStart rw).log
            ++ generatorRecord (resolveModeResponse ar.ResponseMode ar.ResponseTypes).2
              (errorParameters ek f ar err) } := by
  rw [error_run nu ek amb f rw ar err hvalid, resolveMode_same,
    delivery_error_query f _ _ hm]
  simp only []
  rw [afterParameters_ok ek f _ _ _ po hg, getParameters_writer]

theorem response_fragment_run (nu : NetURL) (ek : ErrorKit) (amb : Ambient) (f : Fosite)
    (rw : ResponseWriter) (ar : AuthorizeRequester) (resp : AuthorizeResponder)
    (po : Option Values)
    (hm : (resolveModeResponse ar.ResponseMode ar.ResponseTypes).1 = .Fragment
      ∨ (resolveModeResponse ar.ResponseMode ar.ResponseTypes).1 = .JWTFragment)
    (hg : generate (resolveModeResponse ar.ResponseMode ar.ResponseTypes).2 f amb ar
      resp.Parameters = .ok (po, none)) :
    WriteAuthorizeResponse nu ek amb f rw ar resp =
      deliverFragment nu ar.RedirectURI (po.getD ∅)
        { header := (responseStart rw resp).header
          log := (responseStart rw resp).log
            ++ generatorRecord (resolveModeResponse ar.ResponseMode ar.ResponseTypes).2
              resp.Parameters } := by
  rw [response_run, delivery_response_fragment f _ hm]
  simp only []
  rw [afterParameters_ok ek f _ _ _ po hg, getParameters_writer]

theorem error_fragment_run (nu : NetURL) (ek : ErrorKit) (amb : Ambient) (f : Fosite)
    (rw : ResponseWriter) (ar : AuthorizeRequester) (err : GoError) (po : Option Values)
    (hvalid : ar.IsRedirectURIValid = true)
    (hm : (resolveModeResponse ar.ResponseMode ar.ResponseTypes).1 = .Fragment
      ∨ (resolveModeResponse ar.ResponseMode ar.ResponseTypes).1 = .JWTFragment)
    (hg : generate (resolveModeResponse ar.ResponseMode ar.ResponseTypes).2 f amb ar
      (errorParameters ek f ar err) = .ok (po, none)) :
    WriteAuthorizeError nu ek amb f rw ar err =
      deliverFragment nu ar.RedirectURI (po.getD ∅)
        { header := (errorStart rw).header
          log := (errorStart rw).log
            ++ generatorRecord (resolveModeResponse ar.ResponseMode ar.ResponseTypes).2
              (errorParameters ek f ar err) } := by
  rw [error_run nu ek amb f rw ar err hvalid, resolveMode_same,
    delivery_error_fragment f _ _ hm]
  simp only []
  rw [afterParameters_ok ek f _ _ _ po hg, getParameters_writer]

/-- C8: in query delivery (resolved mode query, default or JWT-secured query),
on both write paths, when parameter generation yields the collection `p`, the
`Location` header is the redirect target with its query replaced by the
encoding of a collection `q` such that: each key of `p` holds exactly the one
value `p.Get k` (the first value of `p[k]`), whatever the original query held
under it, and every other key holds what the original query held. As a
multiset of pairs, `q` is one pair per key of `p` plus the pairs of the
original query under the keys `p` lacks. -/
theorem query_delivery_merges (nu : NetURL) (ek : ErrorKit) (amb : Ambient) (f : Fosite)
    (h0 : Header) (ar : AuthorizeRequester) (resp : AuthorizeResponder) (err : GoError)
    (hvalid : ar.IsRedirectURIValid = true)
    (hm : (resolveModeResponse ar.ResponseMode ar.ResponseTypes).1 = .Query
      ∨ (resolveModeResponse ar.ResponseMode ar.ResponseTypes).1 = .Default
      ∨ (resolveModeResponse ar.ResponseMode ar.ResponseTypes).1 = .JWTQuery) :
    (∀ p, generate (resolveModeResponse ar.ResponseMode ar.ResponseTypes).2 f amb ar
        resp.Parameters = .ok (some p, none) →
      ∃ q : Values,
        (WriteAuthorizeResponse nu ek amb f ⟨h0, []⟩ ar resp).header.lookup "Location"
          = some [URL.String nu { ar.RedirectURI with RawQuery := nu.encode q }]
        ∧ (∀ k, q.lookup k
            = if k ∈ p.keys then some [p.Get k] else (ar.RedirectURI.Query nu).lookup k)
        ∧ q.pairs.Perm ((p.keys.map fun k => (k, p.Get k))
            ++ Values.entryPairs ((ar.RedirectURI.Query nu).entries.filter
                fun e => e.1 ∉ p.keys)))
    ∧ (∀ p, generate (resolveModeResponse ar.ResponseMode ar.ResponseTypes).2 f amb ar
        (errorParameters ek f ar err) = .ok (some p, none) →
      ∃ q : Values,
        (WriteAuthorizeError nu ek amb f ⟨h0, []⟩ ar err).header.lookup "Location"
          = some [URL.String nu { ar.RedirectURI with RawQuery := nu.encode q }]
        ∧ (∀ k, q.lookup k
            = if k ∈ p.keys then some [p.Get k] else (ar.RedirectURI.Query nu).lookup k)
        ∧ q.pairs.Perm ((p.keys.map fun k => (k, p.Get k))
            ++ Values.entryPairs ((ar.RedirectURI.Query nu).entries.filter
                fun e => e.1 ∉ p.keys))) := by
  constructor
  · intro p hg
    refine ⟨mergeQuery (ar.RedirectURI.Query nu) p, ?_, mergeQuery_lookup _ _,
      mergeQuery_pairs_perm _ _⟩
    rw [response_query_run nu ek amb f _ ar resp (some p) hm hg]
    simp [deliverQuery, sendRedirect_eq, header_set_location]
  · intro p hg
    refine ⟨mergeQuery (ar.RedirectURI.Query nu) p, ?_, mergeQuery_lookup _ _,
      mergeQuery_pairs_perm _ _⟩
    rw [error_query_run nu ek amb f _ ar err (some p) hvalid hm hg]
    simp [deliverQuery, sendRedirect_eq, header_set_location]

/-- C8, witness: the sample success payload `code=abc` delivered in query mode
to a target whose query is `a=1&code=old`: `code` is replaced, `a` is kept. -/
theorem query_delivery_merges_witness :
    (queryRequester .Query).IsRedirectURIValid = true
    ∧ ∃ q : Values,
        (WriteAuthorizeResponse sampleNetURL sampleKit sampleAmbient sampleFosite ⟨∅, []⟩
            (queryRequester .Query) sampleResponder).header.lookup "Location"
          = some [URL.String sampleNetURL
              { (queryRequester .Query).RedirectURI with RawQuery := sampleNetURL.encode q }]
        ∧ q.lookup "code" = some ["abc"] ∧ q.lookup "a" = some ["1"] := by
  refine ⟨rfl, ?_⟩
  obtain ⟨q, h1, h2, _⟩ :=
    (query_delivery_merges sampleNetURL sampleKit sampleAmbient sampleFosite ∅
      (queryRequester .Query) sampleResponder (.rfc invalidRequest) rfl (Or.inl rfl)).1
      sampleResponder.Parameters rfl
  exact ⟨q, h1, (h2 "code").trans rfl, (h2 "a").trans rfl⟩

/-! ## C9: fragment delivery -/

/-- C9: in fragment delivery (resolved mode fragment or JWT-secured fragment),
on both write paths, when parameter generation yields the collection `p`, the
`Location` header is the redirect target rendered with its fragment removed,
followed by `#` and the encoding of `p` when `p` has a key, and by nothing
when `p` is empty; that rendering is the part before the query and the query,
so nothing of the original `Fragment` or `RawFragment` is in it. -/
theorem fragment_delivery_replaces (nu : NetURL) (ek : ErrorKit) (amb : Ambient) (f : Fosite)
    (h0 : Header) (ar : AuthorizeRequester) (resp : AuthorizeResponder) (err : GoError)
    (hvalid : ar.IsRedirectURIValid = true)
    (hm : (resolveModeResponse ar.ResponseMode ar.ResponseTypes).1 = .Fragment
      ∨ (resolveModeResponse ar.ResponseMode ar.ResponseTypes).1 = .JWTFragment) :
    URL.String nu { ar.RedirectURI with Fragment := "" }
      = ar.RedirectURI.head
        ++ (if ar.RedirectURI.ForceQuery || ar.RedirectURI.RawQuery != ""
            then "?" ++ ar.RedirectURI.RawQuery else "")
    ∧ (∀ p, generate (resolveModeResponse ar.ResponseMode ar.ResponseTypes).2 f amb ar
        resp.Parameters = .ok (some p, none) →
      (WriteAuthorizeResponse nu ek amb f ⟨h0, []⟩ ar resp).header.lookup "Location"
        = some [if p.entries.length > 0
            then URL.String nu { ar.RedirectURI with Fragment := "" } ++ "#" ++ nu.encode p
            else URL.String nu { ar.RedirectURI with Fragment := "" }])
    ∧ (∀ p, generate (resolveModeResponse ar.ResponseMode ar.ResponseTypes).2 f amb ar
        (errorParameters ek f ar err) = .ok (some p, none) →
      (WriteAuthorizeError nu ek amb f ⟨h0, []⟩ ar err).header.lookup "Location"
        = some [if p.entries.length > 0
            then URL.String nu { ar.RedirectURI with Fragment := "" } ++ "#" ++ nu.encode p
            else URL.String nu { ar.RedirectURI with Fragment := "" }]) := by
  refine ⟨?_, ?_, ?_⟩
  · simp [URL.String]
  · intro p hg
    rw [response_fragment_run nu ek amb f _ ar resp (some p) hm hg]
    simp only [deliverFragment, sendRedirect_eq, header_set_location, Option.getD_some]
  · intro p hg
    rw [error_fragment_run nu ek amb f _ ar err (some p) hvalid hm hg]
    simp only [deliverFragment, sendRedirect_eq, header_set_location, Option.getD_some]

/-- C9, witness: the sample error delivered in fragment mode to a target that
carries the stale fragment `old`. -/
theorem fragment_delivery_replaces_witness :
    (queryRequester .Fragment).IsRedirectURIValid = true
    ∧ (queryRequester .Fragment).RedirectURI.Fragment = "old"
    ∧ (WriteAuthorizeError sampleNetURL sampleKit sampleAmbient sampleFosite ⟨∅, []⟩
        (queryRequester .Fragment) (.rfc invalidRequest)).header.lookup "Location"
      = some ["https://cb.example/cb?a=1&code=old#state=xyz&error_description=The request is malformed.&error=invalid_request"] := by
  refine ⟨rfl, rfl, ?_⟩
  rw [(fragment_delivery_replaces sampleNetURL sampleKit sampleAmbient sampleFosite ∅
    (queryRequester .Fragment) sampleResponder (.rfc invalidRequest) rfl (Or.inl rfl)).2.2
    (errorParameters sampleKit sampleFosite (queryRequester .Fragment) (.rfc invalidRequest))
    rfl]
  rfl

/-! ## C10: a redirect is one `Location` and one status 303 -/

theorem statusCodes_append (a b : List Event) :
    statusCodes (a ++ b) = statusCodes a ++ statusCodes b := by
  simp [statusCodes]

theorem bodies_append (a b : List Event) : bodies (a ++ b) = bodies a ++ bodies b := by
  simp [bodies]

theorem statusCodes_generatorRecord (j : Bool) (params : Values) :
    statusCodes (generatorRecord j params) = [] := by
  cases j <;> rfl

theorem bodies_generatorRecord (j : Bool) (params : Values) :
    bodies (generatorRecord j params) = [] := by
  cases j <;> rfl

theorem copyHeaders_quiet (rh : Header) (rw : ResponseWriter) :
    statusCodes (copyHeaders rh rw).log = statusCodes rw.log
      ∧ bodies (copyHeaders rh rw).log = bodies rw.log := by
  unfold copyHeaders
  generalize rh.entries = l
  induction l generalizing rw with
  | nil => exact ⟨rfl, rfl⟩
  | cons e t ih =>
    rw [List.foldl_cons]
    refine ⟨(ih _).1.trans ?_, (ih _).2.trans ?_⟩
    · simp [ResponseWriter.HeaderSet, statusCodes, Event.status?]
    · simp [ResponseWriter.HeaderSet, bodies, Event.body?]

theorem responseStart_quiet (h0 : Header) (resp : AuthorizeResponder) :
    statusCodes (responseStart ⟨h0, []⟩ resp).log = []
      ∧ bodies (responseStart ⟨h0, []⟩ resp).log = [] := by
  have h := copyHeaders_quiet resp.Header ⟨h0, []⟩
  constructor
  · simp only [responseStart, ResponseWriter.HeaderSet, statusCodes_append, h.1]
    rfl
  · simp only [responseStart, ResponseWriter.HeaderSet, bodies_append, h.2]
    rfl

/-- The outcome of a redirect issued on writer `start` after the record `gen`. -/
theorem sendRedirect_outcome (loc : String) (start : ResponseWriter) (gen : List Event)
    (hs : statusCodes start.log = []) (hb : bodies start.log = [])
    (hgs : statusCodes gen = []) (hgb : bodies gen = []) :
    (sendRedirect loc ⟨start.header, start.log ++ gen⟩).log
        = start.log ++ gen ++
          [.headerSet "Location" loc,
            .writeHeader 303 (sendRedirect loc ⟨start.header, start.log ++ gen⟩).header]
    ∧ (sendRedirect loc ⟨start.header, start.log ++ gen⟩).header.lookup "Location" = some [loc]
    ∧ statusCodes (sendRedirect loc ⟨start.header, start.log ++ gen⟩).log = [303]
    ∧ bodies (sendRedirect loc ⟨start.header, start.log ++ gen⟩).log = [] := by
  rw [sendRedirect_eq]
  refine ⟨rfl, header_set_location _ _, ?_, ?_⟩
  · simp only [statusCodes_append, hs, hgs]
    rfl
  · simp only [bodies_append, hb, hgb]
    rfl

/-- C10: for every resolved mode among query, default, fragment, JWT-secured
query and JWT-secured fragment, whenever parameter generation succeeds, both
write paths perform, after the header preamble (and the generator call),
exactly one `Set` of `Location` followed by one `WriteHeader(303)`: the log of
the call ends with these two operations, `Location` holds exactly the one
value set, 303 is the only status written in the call, and no body is
written. -/
theorem redirect_once (nu : NetURL) (ek : ErrorKit) (amb : Ambient) (f : Fosite)
    (h0 : Header) (ar : AuthorizeRequester) (resp : AuthorizeResponder) (err : GoError)
    (hvalid : ar.IsRedirectURIValid = true)
    (hm : (resolveModeResponse ar.ResponseMode ar.ResponseTypes).1 = .Query
      ∨ (resolveModeResponse ar.ResponseMode ar.ResponseTypes).1 = .Default
      ∨ (resolveModeResponse ar.ResponseMode ar.ResponseTypes).1 = .JWTQuery
      ∨ (resolveModeResponse ar.ResponseMode ar.ResponseTypes).1 = .Fragment
      ∨ (resolveModeResponse ar.ResponseMode ar.ResponseTypes).1 = .JWTFragment) :
    (∀ po, generate (resolveModeResponse ar.ResponseMode ar.ResponseTypes).2 f amb ar
        resp.Parameters = .ok (po, none) →
      ∃ loc,
        (WriteAuthorizeResponse nu ek amb f ⟨h0, []⟩ ar resp).log
          = (responseStart ⟨h0, []⟩ resp).log
            ++ generatorRecord (resolveModeResponse ar.ResponseMode ar.ResponseTypes).2
              resp.Parameters
            ++ [.headerSet "Location" loc,
                .writeHeader 303 (WriteAuthorizeResponse nu ek amb f ⟨h0, []⟩ ar resp).header]
        ∧ (WriteAuthorizeResponse nu ek amb f ⟨h0, []⟩ ar resp).header.lookup "Location"
            = some [loc]
        ∧ statusCodes (WriteAuthorizeResponse nu ek amb f ⟨h0, []⟩ ar resp).log = [303]
        ∧ bodies (WriteAuthorizeResponse nu ek amb f ⟨h0, []⟩ ar resp).log = [])
    ∧ (∀ po, generate (resolveModeResponse ar.ResponseMode ar.ResponseTypes).2 f amb ar
        (errorParameters ek f ar err) = .ok (po, none) →
      ∃ loc,
        (WriteAuthorizeError nu ek amb f ⟨h0, []⟩ ar err).log
          = [.headerSet "Cache-Control" "no-store", .headerSet "Pragma" "no-cache"]
            ++ generatorRecord (resolveModeResponse ar.ResponseMode ar.ResponseTypes).2
              (errorParameters ek f ar err)
            ++ [.headerSet "Location" loc,
                .writeHeader 303 (WriteAuthorizeError nu ek amb f ⟨h0, []⟩ ar err).header]
        ∧ (WriteAuthorizeError nu ek amb f ⟨h0, []⟩ ar err).header.lookup "Location"
            = some [loc]
        ∧ statusCodes (WriteAuthorizeError nu ek amb f ⟨h0, []⟩ ar err).log = [303]
        ∧ bodies (WriteAuthorizeError nu ek amb f ⟨h0, []⟩ ar err).log = []) := by
  have hq : ((resolveModeResponse ar.ResponseMode ar.ResponseTypes).1 = .Query
      ∨ (resolveModeResponse ar.ResponseMode ar.ResponseTypes).1 = .Default
      ∨ (resolveModeResponse ar.ResponseMode ar.ResponseTypes).1 = .JWTQuery)
      ∨ ((resolveModeResponse ar.ResponseMode ar.ResponseTypes).1 = .Fragment
      ∨ (resolveModeResponse ar.ResponseMode ar.ResponseTypes).1 = .JWTFragment) := by
    rcases hm with h | h | h | h | h
    · exact Or.inl (Or.inl h)
    · exact Or.inl (Or.inr (Or.inl h))
    · exact Or.inl (Or.inr (Or.inr h))
    · exact Or.inr (Or.inl h)
    · exact Or.inr (Or.inr h)
  have hes : statusCodes (errorStart ⟨h0, []⟩).log = [] := rfl
  have heb : bodies (errorStart ⟨h0, []⟩).log = [] := rfl
  have hel : (errorStart ⟨h0, []⟩).log
      = [.headerSet "Cache-Control" "no-store", .headerSet "Pragma" "no-cache"] := rfl
  constructor
  · intro po hg
    rcases hq with h | h
    · rw [response_query_run nu ek amb f _ ar resp po h hg]
      exact ⟨_, sendRedirect_outcome _ (responseStart ⟨h0, []⟩ resp) _
        (responseStart_quiet h0 resp).1 (responseStart_quiet h0 resp).2
        (statusCodes_generatorRecord _ _) (bodies_generatorRecord _ _)⟩
    · rw [response_fragment_run nu ek amb f _ ar resp po h hg]
      exact ⟨_, sendRedirect_outcome _ (responseStart ⟨h0, []⟩ resp) _
        (responseStart_quiet h0 resp).1 (responseStart_quiet h0 resp).2
        (statusCodes_generatorRecord _ _) (bodies_generatorRecord _ _)⟩
  · intro po hg
    rw [← hel]
    rcases hq with h | h
    · rw [error_query_run nu ek amb f _ ar err po hvalid h hg]
      exact ⟨_, sendRedirect_outcome _ (errorStart ⟨h0, []⟩) _ hes heb
        (statusCodes_generatorRecord _ _) (bodies_generatorRecord _ _)⟩
    · rw [error_fragment_run nu ek amb f _ ar err po hvalid h hg]
      exact ⟨_, sendRedirect_outcome _ (errorStart ⟨h0, []⟩) _ hes heb
        (statusCodes_generatorRecord _ _) (bodies_generatorRecord _ _)⟩

/-- C10, witness: the generic JWT mode with response types `code` (resolved to
JWT-secured query) and a payload without parameters: the generator succeeds
and the call writes the one status 303 and no body. -/
theorem redirect_once_witness :
    (sampleRequester .JWT).IsRedirectURIValid = true
    ∧ (resolveModeResponse (sampleRequester .JWT).ResponseMode
        (sampleRequester .JWT).ResponseTypes).1 = .JWTQuery
    ∧ statusCodes (WriteAuthorizeResponse sampleNetURL sampleKit sampleAmbient sampleFosite
        ⟨∅, []⟩ (sampleRequester .JWT) emptyResponder).log = [303]
    ∧ bodies (WriteAuthorizeResponse sampleNetURL sampleKit sampleAmbient sampleFosite
        ⟨∅, []⟩ (sampleRequester .JWT) emptyResponder).log = [] := by
  obtain ⟨_, _, _, h3, h4⟩ :=
    (redirect_once sampleNetURL sampleKit sampleAmbient sampleFosite ∅ (sampleRequester .JWT)
      emptyResponder (.rfc invalidRequest) rfl (Or.inr (Or.inr (Or.inl rfl)))).1
      (some (AList.singleton "response" ["header.https://as.example.sig"])) rfl
  exact ⟨rfl, rfl, h3, h4⟩

/-! ## C11: form-post delivery -/

theorem delivery_response_formPost (f : Fosite) (rm : ResponseModeType)
    (h : rm = .FormPost ∨ rm = .JWTFormPost) : deliveryResponse f rm = .formPost := by
  rcases h with h | h <;> subst h <;> rfl

theorem delivery_error_formPost (f : Fosite) (rm requested : ResponseModeType)
    (h : rm = .FormPost ∨ rm = .JWTFormPost) : deliveryError f rm requested = .formPost := by
  rcases h with h | h <;> subst h <;> rfl

theorem deliverFormPost_eq (nu : NetURL) (redir : URL) (p : Values) (rw : ResponseWriter) :
    deliverFormPost nu redir p rw =
      { header := rw.header.Add "Content-Type" "text/html;charset=UTF-8"
        log := rw.log ++
          [ .headerAdd "Content-Type" "text/html;charset=UTF-8",
            .formPost (redir.String nu) p
              (rw.header.Add "Content-Type" "text/html;charset=UTF-8") ] } := by
  simp [deliverFormPost, ResponseWriter.HeaderAdd, ResponseWriter.record, canonical_contentType]

theorem header_add_contentType (h : Header) (v : String) :
    (h.Add "Content-Type" v).values "Content-Type" = h.values "Content-Type" ++ [v] := by
  simp [Header.Add, Header.values, canonical_contentType]

/-- What form-post delivery does on the success path, in general: the form
writer gets the rendered target and the generated parameters, and the
Content-Type values are those the writer already had, followed by the HTML
type; so the header reads as the HTML type exactly when nothing was there. -/
theorem response_formPost_run (nu : NetURL) (ek : ErrorKit) (amb : Ambient) (f : Fosite)
    (rw : ResponseWriter) (ar : AuthorizeRequester) (resp : AuthorizeResponder)
    (po : Option Values)
    (hm : (resolveModeResponse ar.ResponseMode ar.ResponseTypes).1 = .FormPost
      ∨ (resolveModeResponse ar.ResponseMode ar.ResponseTypes).1 = .JWTFormPost)
    (hg : generate (resolveModeResponse ar.ResponseMode ar.ResponseTypes).2 f amb ar
      resp.Parameters = .ok (po, none)) :
    WriteAuthorizeResponse nu ek amb f rw ar resp =
      deliverFormPost nu ar.RedirectURI (po.getD ∅)
        { header := (responseStart rw resp).header
          log := (responseStart rw resp).log
            ++ generatorRecord (resolveModeResponse ar.ResponseMode ar.ResponseTypes).2
              resp.Parameters } := by
  rw [response_run, delivery_response_formPost f _ hm]
  simp only []
  rw [afterParameters_ok ek f _ _ _ po hg, getParameters_writer]

theorem error_formPost_run (nu : NetURL) (ek : ErrorKit) (amb : Ambient) (f : Fosite)
    (rw : ResponseWriter) (ar : AuthorizeRequester) (err : GoError) (po : Option Values)
    (hvalid : ar.IsRedirectURIValid = true)
    (hm : (resolveModeResponse ar.ResponseMode ar.ResponseTypes).1 = .FormPost
      ∨ (resolveModeResponse ar.ResponseMode ar.ResponseTypes).1 = .JWTFormPost)
    (hg : generate (resolveModeResponse ar.ResponseMode ar.ResponseTypes).2 f amb ar
      (errorParameters ek f ar err) = .ok (po, none)) :
    WriteAuthorizeError nu ek amb f rw ar err =
      deliverFormPost nu ar.RedirectURI (po.getD ∅)
        { header := (errorStart rw).header
          log := (errorStart rw).log
            ++ generatorRecord (resolveModeResponse ar.ResponseMode ar.ResponseTypes).2
              (errorParameters ek f ar err) } := by
  rw [error_run nu ek amb f rw ar err hvalid, resolveMode_same,
    delivery_error_formPost f _ _ hm]
  simp only []
  rw [afterParameters_ok ek f _ _ _ po hg, getParameters_writer]

theorem response_formPost_contentType (nu : NetURL) (ek : ErrorKit) (amb : Ambient)
    (f : Fosite) (rw : ResponseWriter) (ar : AuthorizeRequester) (resp : AuthorizeResponder)
    (po : Option Values)
    (hm : (resolveModeResponse ar.ResponseMode ar.ResponseTypes).1 = .FormPost
      ∨ (resolveModeResponse ar.ResponseMode ar.ResponseTypes).1 = .JWTFormPost)
    (hg : generate (resolveModeResponse ar.ResponseMode ar.ResponseTypes).2 f amb ar
      resp.Parameters = .ok (po, none)) :
    (WriteAuthorizeResponse nu ek amb f rw ar resp).header.values "Content-Type"
      = (responseStart rw resp).header.values "Content-Type" ++ ["text/html;charset=UTF-8"] := by
  rw [response_formPost_run nu ek amb f rw ar resp po hm hg, deliverFormPost_eq]
  exact header_add_contentType _ _

/-- C11, the code at the failing input: a success payload whose custom headers
carry `Content-Type: application/json`, delivered in form-post mode. The form
writer is called once with the redirect target and the parameters, and no
`Location` is written, but `Add` appends the HTML type after the custom
value: the Content-Type header reads `application/json`. -/
theorem formPost_contentType_shadowed :
    (WriteAuthorizeResponse sampleNetURL sampleKit sampleAmbient sampleFosite ⟨∅, []⟩
        (sampleRequester .FormPost) typedResponder).header.values "Content-Type"
      = ["application/json", "text/html;charset=UTF-8"]
    ∧ (WriteAuthorizeResponse sampleNetURL sampleKit sampleAmbient sampleFosite ⟨∅, []⟩
        (sampleRequester .FormPost) typedResponder).header.Get "Content-Type"
      = "application/json"
    ∧ (WriteAuthorizeResponse sampleNetURL sampleKit sampleAmbient sampleFosite ⟨∅, []⟩
        (sampleRequester .FormPost) typedResponder).log.filter Event.isFormPost
      = [.formPost "https://cb.example/cb#old" (AList.singleton "code" ["abc"])
          (WriteAuthorizeResponse sampleNetURL sampleKit sampleAmbient sampleFosite ⟨∅, []⟩
            (sampleRequester .FormPost) typedResponder).header]
    ∧ (WriteAuthorizeResponse sampleNetURL sampleKit sampleAmbient sampleFosite ⟨∅, []⟩
        (sampleRequester .FormPost) typedResponder).log.filter Event.setsLocation = []
    ∧ (WriteAuthorizeError sampleNetURL sampleKit sampleAmbient sampleFosite ⟨∅, []⟩
        (sampleRequester .FormPost) (.rfc invalidRequest)).header.values "Content-Type"
      = ["text/html;charset=UTF-8"] :=
  ⟨rfl, rfl, rfl, rfl, rfl⟩

/-! ## C12: no signer configured -/

/-- With a payload that has no parameter, the missing signer is reported as
the specification says: one status 500, the `server_error` rendering, no
`Location`. -/
theorem signerless_empty_payload :
    statusCodes (WriteAuthorizeResponse sampleNetURL sampleKit sampleAmbient signerlessFosite
        ⟨∅, []⟩ (sampleRequester .JWTQuery) emptyResponder).log = [500]
    ∧ bodies (WriteAuthorizeResponse sampleNetURL sampleKit sampleAmbient signerlessFosite
        ⟨∅, []⟩ (sampleRequester .JWTQuery) emptyResponder).log
      = ["\x7b\"error\":\"server_error\"\x7d"]
    ∧ (WriteAuthorizeResponse sampleNetURL sampleKit sampleAmbient signerlessFosite
        ⟨∅, []⟩ (sampleRequester .JWTQuery) emptyResponder).log.filter Event.setsLocation = [] :=
  ⟨rfl, rfl, rfl⟩

/-- C12, the code at the failing input: mode jwt-query, no signer, a session
with the ID-token capability and the success payload `code=abc`. The call
stops with the run-time fault of the generator before the signer is looked
up: no status is written and no body. -/
theorem signerless_jwt_query_faults :
    (WriteAuthorizeResponse sampleNetURL sampleKit sampleAmbient signerlessFosite ⟨∅, []⟩
        (sampleRequester .JWTQuery) sampleResponder).log.getLast?
      = some (.fault "assignment to entry in nil map")
    ∧ statusCodes (WriteAuthorizeResponse sampleNetURL sampleKit sampleAmbient signerlessFosite
        ⟨∅, []⟩ (sampleRequester .JWTQuery) sampleResponder).log = []
    ∧ bodies (WriteAuthorizeResponse sampleNetURL sampleKit sampleAmbient signerlessFosite
        ⟨∅, []⟩ (sampleRequester .JWTQuery) sampleResponder).log = [] :=
  ⟨rfl, rfl, rfl⟩

/-! ## C13: the session is required -/

/-- The generator is the type switch followed by the rest of the function. -/
theorem generate_steps (config : Configurator) (amb : Ambient) (client : Client)
    (session : Session) (params : Values) :
    GenerateTokenFromParameters config amb client session params
      = match sessionCapability session with
        | .error e => .ok ("", "", some e)
        | .ok hc => afterSession config amb client params hc := by
  unfold GenerateTokenFromParameters sessionCapability afterSession initialClaims tokenIssuer
    signerMissing
  rcases session with _ | ⟨i, j⟩
  · rfl
  · rcases i with _ | ⟨h1, c1⟩ <;> rcases j with _ | ⟨h2, c2⟩ <;> rfl

/-- C13: for every configuration (signer included), client and parameter
collection, a nil session and a session with neither capability make
`GenerateTokenFromParameters` return an error with empty token and signature;
the result is the same whatever signer is configured, so the signer is not
consulted. A session with one of the two capabilities passes the type
switch (the ID-token capability first), and the generator goes on with its
headers and claims. -/
theorem session_required (config : Configurator) (amb : Ambient) (client : Client)
    (params : Values) (s : SessionValue) :
    GenerateTokenFromParameters config amb client none params
      = .ok ("", "", some (.plain
          "The JARM response modes require the Authorize Requester session to be set but it wasn't."))
    ∧ (s.idToken = none → s.jwtContainer = none →
        GenerateTokenFromParameters config amb client (some s) params
          = .ok ("", "", some (.plain
              "The JARM response modes require the Authorize Requester session to implement either the openid.Session or oauth2.JWTSessionContainer interfaces but it doesn't.")))
    ∧ (∀ hc, s.idToken = some hc →
        sessionCapability (some s) = .ok hc
        ∧ GenerateTokenFromParameters config amb client (some s) params
            = afterSession config amb client params hc)
    ∧ (∀ hc, s.idToken = none → s.jwtContainer = some hc →
        sessionCapability (some s) = .ok hc
        ∧ GenerateTokenFromParameters config amb client (some s) params
            = afterSession config amb client params hc) := by
  refine ⟨rfl, ?_, ?_, ?_⟩
  · intro hi hj
    rw [generate_steps]
    simp [sessionCapability, hi, hj]
  · intro hc hi
    have h : sessionCapability (some s) = .ok hc := by simp [sessionCapability, hi]
    refine ⟨h, ?_⟩
    rw [generate_steps, h]
  · intro hc hi hj
    have h : sessionCapability (some s) = .ok hc := by simp [sessionCapability, hi, hj]
    refine ⟨h, ?_⟩
    rw [generate_steps, h]

/-- C13, witness: a session value with neither capability, and the sample
session with the ID-token capability. -/
theorem session_required_witness :
    GenerateTokenFromParameters signerlessFosite.jarm sampleAmbient ⟨"client-1"⟩
        (some ⟨none, none⟩) (AList.singleton "code" ["abc"])
      = .ok ("", "", some (.plain
          "The JARM response modes require the Authorize Requester session to implement either the openid.Session or oauth2.JWTSessionContainer interfaces but it doesn't."))
    ∧ sessionCapability sampleSession = .ok (∅, ∅) :=
  ⟨(session_required signerlessFosite.jarm sampleAmbient ⟨"client-1"⟩
      (AList.singleton "code" ["abc"]) ⟨none, none⟩).2.1 rfl rfl,
    ((session_required sampleFosite.jarm sampleAmbient ⟨"client-1"⟩ ∅
      ⟨some (∅, ∅), none⟩).2.2.1 (∅, ∅) rfl).1⟩

/-! ## C14: the parameters returned by the generator -/

/-- A generation that succeeds had no parameter to embed: with a key in
`params` the generator either reports the missing session or stops at the
assignment into the nil map. -/
theorem success_without_parameters (config : Configurator) (amb : Ambient) (client : Client)
    (session : Session) (params : Values) (token signature : String)
    (h : GenerateTokenFromParameters config amb client session params
      = .ok (token, signature, none)) : params.entries = [] := by
  by_contra hne
  rcases session with _ | s
  · rw [generate_steps] at h
    simp [sessionCapability] at h
  · by_cases hcap : s.idToken.isSome = true ∨ s.jwtContainer.isSome = true
    · rw [generator_faults_of_nonempty config amb client s params hcap hne] at h
      cases h
    · have hi : s.idToken = none := by
        cases hx : s.idToken with
        | none => rfl
        | some x => exact absurd (Or.inl (by simp [hx])) hcap
      have hj : s.jwtContainer = none := by
        cases hx : s.jwtContainer with
        | none => rfl
        | some x => exact absurd (Or.inr (by simp [hx])) hcap
      rw [generate_steps] at h
      simp [sessionCapability, hi, hj] at h

/-- C14: `GenerateTokenToResponseParameters` turns a token into exactly the
one-entry collection `response = [token]` and an error into no parameters
and that same error; so does `GenerateParameters` for every input: when token
generation succeeds with `token` the result is that one entry, it holds
nothing under any other key and nothing under a key of the original
parameters, and when token generation fails the result is nil parameters with
the generator's error unchanged. -/
theorem response_parameters (config : Configurator) (amb : Ambient) (client : Client)
    (session : Session) (params : Values) (token signature : String) (e : GoError) :
    GenerateTokenToResponseParameters token signature none
      = (some (AList.singleton "response" [token]), none)
    ∧ GenerateTokenToResponseParameters token signature (some e) = (none, some e)
    ∧ (AList.singleton "response" [token] : Values).entries = [⟨"response", [token]⟩]
    ∧ (∀ k, k ≠ "response" → (AList.singleton "response" [token] : Values).lookup k = none)
    ∧ (GenerateTokenFromParameters config amb client session params
        = .ok (token, signature, none) →
      GenerateParameters config amb client session params
          = .ok (some (AList.singleton "response" [token]), none)
        ∧ ∀ k ∈ params.keys, (AList.singleton "response" [token] : Values).lookup k = none)
    ∧ (GenerateTokenFromParameters config amb client session params
        = .ok (token, signature, some e) →
      GenerateParameters config amb client session params = .ok (none, some e)) := by
  refine ⟨rfl, rfl, rfl, ?_, ?_, ?_⟩
  · intro k hk
    exact AList.lookup_eq_none.mpr (by simp [AList.mem_keys, AList.keys_singleton, hk])
  · intro h
    refine ⟨by simp [GenerateParameters, h, GenerateTokenToResponseParameters], ?_⟩
    intro k hk
    have hnil := success_without_parameters config amb client session params token signature h
    have hkeys : params.keys = [] := by simp [AList.keys, hnil]
    rw [hkeys] at hk
    cases hk
  · intro h
    simp [GenerateParameters, h, GenerateTokenToResponseParameters]

/-- C14, witness: the sample session and signer with an empty parameter
collection succeed, and the result is the one `response` entry. -/
theorem response_parameters_witness :
    GenerateTokenFromParameters sampleFosite.jarm sampleAmbient ⟨"client-1"⟩ sampleSession ∅
      = .ok ("header.https://as.example.sig", "sig", none)
    ∧ GenerateParameters sampleFosite.jarm sampleAmbient ⟨"client-1"⟩ sampleSession ∅
      = .ok (some (AList.singleton "response" ["header.https://as.example.sig"]), none)
    ∧ GenerateParameters sampleFosite.jarm sampleAmbient ⟨"client-1"⟩ none
        (AList.singleton "code" ["abc"])
      = .ok (none, some (.plain
          "The JARM response modes require the Authorize Requester session to be set but it wasn't.")) :=
  ⟨rfl,
    ((response_parameters sampleFosite.jarm sampleAmbient ⟨"client-1"⟩ sampleSession ∅
      "header.https://as.example.sig" "sig" signerMissing).2.2.2.2.1 rfl).1,
    (response_parameters sampleFosite.jarm sampleAmbient ⟨"client-1"⟩ none
      (AList.singleton "code" ["abc"]) "" "" (.plain
        "The JARM response modes require the Authorize Requester session to be set but it wasn't.")).2.2.2.2.2
      rfl⟩

/-! ## C15: the issuer of the JARM claims -/

theorem tokenIssuer_rule (config : Configurator) (src : MapClaims) :
    tokenIssuer config src
      = match src.lookup "iss" with
        | some (.str s) => if s = "" then config.issuer else s
        | _ => config.issuer := by
  unfold tokenIssuer
  cases src.lookup "iss" with
  | none => simp
  | some v =>
    cases v with
    | str s =>
      by_cases hs : s = ""
      · simp [hs]
      · have hlen : s.length ≠ 0 := by
          intro h0
          apply hs
          have hd : s.data = [] := List.length_eq_zero.mp h0
          cases s
          simp_all
        simp [hs, hlen]
    | strs l => simp
    | int64 i => simp
    | float64 q => simp
    | other r => simp

/-- C15: for every session that passes the type switch with headers `headers`
and claim mapping `src`, the claims `GenerateTokenFromParameters` builds have
as issuer the `iss` claim of `src` when it is a non-empty string, and the
configured default issuer when `iss` is absent, empty or not a string; these
are the claims the rest of the generator works on, and the claims whose
mapping a configured signer receives. -/
theorem issuer_selection (config : Configurator) (amb : Ambient) (client : Client)
    (s : SessionValue) (headers src : MapClaims)
    (hcap : sessionCapability (some s) = .ok (headers, src)) :
    (initialClaims config amb client src).Issuer
      = (match src.lookup "iss" with
        | some (.str i) => if i = "" then config.issuer else i
        | _ => config.issuer)
    ∧ (∀ params, GenerateTokenFromParameters config amb client (some s) params
        = match params.entries.foldlM (fun c e => assignExtra c e.1 (.str (params.Get e.1)))
            (initialClaims config amb client src) with
          | .error fault => .error fault
          | .ok claims =>
            match config.signer with
            | none => .ok ("", "", some signerMissing)
            | some signer => .ok (signer (claims.ToMapClaims amb.uuidToMap) headers))
    ∧ (∀ signer, config.signer = some signer →
        GenerateTokenFromParameters config amb client (some s) ∅
          = .ok (signer ((initialClaims config amb client src).ToMapClaims amb.uuidToMap)
              headers))
    ∧ ((initialClaims config amb client src).ToMapClaims amb.uuidToMap).lookup "iss"
        = (if (initialClaims config amb client src).Issuer = "" then none
          else some (.str (initialClaims config amb client src).Issuer)) := by
  refine ⟨tokenIssuer_rule config src, ?_, ?_, toMap_iss _ _⟩
  · intro params
    rw [generate_steps, hcap]
    rfl
  · intro signer hs
    rw [generate_steps, hcap]
    simp only [afterSession, hs]
    rfl

/-- C15, witness: a session whose own claims name an issuer keeps it; the
sample session, whose claims name none, gets the configured default. -/
theorem issuer_selection_witness :
    sessionCapability issuingSession
      = .ok (∅, AList.singleton "iss" (Value.str "https://session.example"))
    ∧ (initialClaims sampleFosite.jarm sampleAmbient ⟨"client-1"⟩
        (AList.singleton "iss" (Value.str "https://session.example"))).Issuer
      = "https://session.example"
    ∧ (initialClaims sampleFosite.jarm sampleAmbient ⟨"client-1"⟩ ∅).Issuer
      = "https://as.example" :=
  ⟨rfl,
    (issuer_selection sampleFosite.jarm sampleAmbient ⟨"client-1"⟩
      ⟨none, some (∅, AList.singleton "iss" (Value.str "https://session.example"))⟩ ∅
      (AList.singleton "iss" (Value.str "https://session.example")) rfl).1.trans rfl,
    (issuer_selection sampleFosite.jarm sampleAmbient ⟨"client-1"⟩
      ⟨some (∅, ∅), none⟩ ∅ ∅ rfl).1.trans rfl⟩

/-! ## C16: the token id is never empty -/

/-- C16: for every claims value `c`, whatever `Extra` holds under `jti`, the
mapping `ToMap(c)` holds under `jti` a string, which is `c.JTI` when that is
non-empty and the generated identifier otherwise; a generated uuid is never
the empty string, so the value is never empty. -/
theorem jti_never_empty (uuid : String) (c : JARMClaims) (huuid : uuid ≠ "") :
    ∃ s : String, (c.ToMap uuid).lookup "jti" = some (.str s) ∧ s ≠ ""
      ∧ (c.JTI ≠ "" → s = c.JTI) ∧ (c.JTI = "" → s = uuid) := by
  refine ⟨if c.JTI = "" then uuid else c.JTI, toMap_jti uuid c, ?_, ?_, ?_⟩
  · split_ifs with h
    · exact huuid
    · exact h
  · intro h
    simp [h]
  · intro h
    simp [h]

/-- C16, witness: a claims value without a token id whose `Extra` carries an
empty `jti`. -/
theorem jti_never_empty_witness :
    (staleJTIClaims.Extra.getD ∅).lookup "jti" = some (.str "")
    ∧ ∃ s : String,
        (staleJTIClaims.ToMap "6ba7b811-9dad-11d1-80b4-00c04fd430c8").lookup "jti"
          = some (.str s) ∧ s ≠ "" :=
  ⟨rfl, by
    obtain ⟨s, h1, h2, _⟩ :=
      jti_never_empty "6ba7b811-9dad-11d1-80b4-00c04fd430c8" staleJTIClaims (by decide)
    exact ⟨s, h1, h2⟩⟩

/-! ## C17: the well-known keys of `ToMap` -/

theorem reservedKey_cases (k : String) (h : reservedKey k = true) :
    k = "jti" ∨ k = "iss" ∨ k = "aud" ∨ k = "iat" ∨ k = "exp" := by
  simpa [reservedKey, or_assoc] using h

/-- C17: for every claims value `c`, in `ToMap(c)`: `iss` is present exactly
when `c.Issuer` is non-empty and then is that string; `aud` is always present
and is the list `c.Audience` (the empty list when there is none); `iat` and
`exp` are present exactly when the timestamp is non-zero and then hold its
whole seconds since the epoch; under each of the five well-known keys the
result is the same whatever `Extra` is; every other key holds what `c.Extra`
holds under it. The method writes only into the map made by `Copy`, which
holds the entries of `c.Extra`; the receiver is not written to. -/
theorem toMap_wellKnown (uuid : String) (c : JARMClaims) :
    (c.ToMap uuid).lookup "iss" = (if c.Issuer = "" then none else some (.str c.Issuer))
    ∧ (c.ToMap uuid).lookup "aud" = some (.strs c.Audience)
    ∧ (c.ToMap uuid).lookup "iat"
        = (if c.IssuedAt.IsZero then none else some (.int64 c.IssuedAt.Unix))
    ∧ (c.ToMap uuid).lookup "exp"
        = (if c.ExpiresAt.IsZero then none else some (.int64 c.ExpiresAt.Unix))
    ∧ (∀ (extra : Option MapClaims) (k : String), reservedKey k = true →
        (JARMClaims.ToMap uuid { c with Extra := extra }).lookup k = (c.ToMap uuid).lookup k)
    ∧ (∀ k, reservedKey k = false → (c.ToMap uuid).lookup k = (c.Extra.getD ∅).lookup k)
    ∧ (∀ k, (Copy c.Extra).lookup k = (c.Extra.getD ∅).lookup k) := by
  refine ⟨toMap_iss uuid c, toMap_aud uuid c, toMap_iat uuid c, toMap_exp uuid c, ?_,
    toMap_other uuid c, copy_lookup c.Extra⟩
  intro extra k hk
  rcases reservedKey_cases k hk with h | h | h | h | h <;> subst h
  · rw [toMap_jti, toMap_jti]
  · rw [toMap_iss, toMap_iss]
  · rw [toMap_aud, toMap_aud]
  · rw [toMap_iat, toMap_iat]
  · rw [toMap_exp, toMap_exp]

/-- C17, witness: the claims value whose `Extra` shadows `iss`: the mapping
holds the typed issuer, and the ordinary key `state` comes from `Extra`. -/
theorem toMap_wellKnown_witness :
    (shadowingClaims.Extra.getD ∅).lookup "iss" = some (.str "shadow")
    ∧ (shadowingClaims.ToMap "u").lookup "iss" = some (.str "https://as.example")
    ∧ (shadowingClaims.ToMap "u").lookup "state" = some (.str "xyz")
    ∧ (JARMClaims.ToMap "u" { shadowingClaims with Extra := none }).lookup "iss"
        = (shadowingClaims.ToMap "u").lookup "iss" :=
  ⟨rfl, (toMap_wellKnown "u" shadowingClaims).1.trans rfl,
    ((toMap_wellKnown "u" shadowingClaims).2.2.2.2.2.1 "state" rfl).trans rfl,
    (toMap_wellKnown "u" shadowingClaims).2.2.2.2.1 none "iss" rfl⟩

/-- The method `Get` (lines 93-95) reads the mapping of `ToMap`, so under a
well-known key it answers with the typed field and not with the entry of
`Extra`, although its comment (line 92) speaks of the extra field. -/
theorem get_reads_mapping (uuid : String) (c : JARMClaims) (key : String) :
    JARMClaims.Get uuid c key = (c.ToMap uuid).lookup key
    ∧ JARMClaims.Get "u" shadowingClaims "iss" = some (.str "https://as.example")
    ∧ (shadowingClaims.Extra.getD ∅).lookup "iss" = some (.str "shadow") :=
  ⟨rfl, rfl, rfl⟩

/-! ## C18: what `FromMap` leaves in `Extra` -/

theorem fromMap_fold_extra_isSome (l : List (Σ _ : String, Value)) (c0 : JARMClaims)
    (h0 : c0.Extra.isSome = true) :
    (l.foldl (fun c e => JARMClaims.fromMapStep c e.1 e.2) c0).Extra.isSome = true := by
  induction l generalizing c0 with
  | nil => exact h0
  | cons e t ih =>
    rw [List.foldl_cons]
    apply ih
    cases hr : reservedKey e.1 with
    | true => rw [fromMapStep_extra_reserved c0 e.1 e.2 hr]; exact h0
    | false => rw [fromMapStep_extra_other c0 e.1 e.2 hr]; rfl

theorem fromMap_extra_isSome (c : JARMClaims) (m : MapClaims) :
    (c.FromMap m).Extra.isSome = true :=
  fromMap_fold_extra_isSome m.entries _ rfl

/-- C18: for every receiver `c` and every mapping `m`, after `FromMap(m)` the
`Extra` map is a (non-nil) map that holds, under every key other than `jti`,
`iss`, `aud`, `iat` and `exp`, exactly what `m` holds under it, and nothing
under those five keys; its keys are the keys of `m` other than the five, and
it is the same for every previous `Extra` of the receiver. -/
theorem fromMap_extra_exact (c : JARMClaims) (m : MapClaims) :
    (c.FromMap m).Extra.isSome = true
    ∧ (∀ k, ((c.FromMap m).Extra.getD ∅).lookup k
        = if reservedKey k then none else m.lookup k)
    ∧ (∀ k, k ∈ ((c.FromMap m).Extra.getD ∅).keys ↔ (k ∈ m.keys ∧ reservedKey k = false))
    ∧ (∀ (previous : Option MapClaims) (k : String),
        ((JARMClaims.FromMap { c with Extra := previous } m).Extra.getD ∅).lookup k
          = ((c.FromMap m).Extra.getD ∅).lookup k) := by
  refine ⟨fromMap_extra_isSome c m, fromMap_Extra c m, ?_, ?_⟩
  · intro k
    rw [← AList.mem_keys, ← AList.mem_keys, ← AList.lookup_isSome, ← AList.lookup_isSome,
      fromMap_Extra]
    cases reservedKey k <;> simp
  · intro previous k
    rw [fromMap_Extra, fromMap_Extra]

/-! ## C19: modes left to the extension handler -/

theorem headerSet_fold_log (g : String → String) (l : List (Σ _ : String, List String))
    (rw : ResponseWriter) :
    (l.foldl (fun rw e => ResponseWriter.HeaderSet rw e.1 (g e.1)) rw).log
      = rw.log ++ l.map fun e => Event.headerSet (CanonicalMIMEHeaderKey e.1) (g e.1) := by
  induction l generalizing rw with
  | nil => simp
  | cons e t ih =>
    rw [List.foldl_cons, ih]
    simp [ResponseWriter.HeaderSet]

theorem copyHeaders_log (rh : Header) (rw : ResponseWriter) :
    (copyHeaders rh rw).log = rw.log ++ customHeaderSets rh :=
  headerSet_fold_log (Header.Get rh) rh.entries rw

theorem responseStart_log (h0 : Header) (resp : AuthorizeResponder) :
    (responseStart ⟨h0, []⟩ resp).log
      = customHeaderSets resp.Header
        ++ [.headerSet "Cache-Control" "no-store", .headerSet "Pragma" "no-cache"] := by
  simp [responseStart, ResponseWriter.HeaderSet, copyHeaders_log, canonical_cacheControl,
    canonical_pragma]

theorem customHeaderSets_handler (rh : Header) :
    (customHeaderSets rh).filter Event.isHandler = [] := by
  unfold customHeaderSets
  generalize rh.entries = l
  induction l with
  | nil => rfl
  | cons e t ih => simpa [Event.isHandler] using ih

theorem resolve_ext (tag : String) (responseTypes : List String) :
    resolveModeResponse (.Ext tag) responseTypes = (.Ext tag, false)
      ∧ resolveModeError (.Ext tag) responseTypes = (.Ext tag, false) :=
  ⟨rfl, rfl⟩

theorem customHeaderSets_location (rh : Header)
    (hk : ∀ e ∈ rh.entries, CanonicalMIMEHeaderKey e.1 ≠ "Location") :
    (customHeaderSets rh).filter Event.setsLocation = [] := by
  unfold customHeaderSets
  rw [List.filter_eq_nil_iff]
  intro ev hev
  obtain ⟨e, he, rfl⟩ := List.mem_map.mp hev
  simp [Event.setsLocation, hk e he]

theorem headerSet_fold_lookup (g : String → String) (key : String)
    (l : List (Σ _ : String, List String))
    (hk : ∀ e ∈ l, CanonicalMIMEHeaderKey e.1 ≠ key) (rw : ResponseWriter) :
    (l.foldl (fun rw e => ResponseWriter.HeaderSet rw e.1 (g e.1)) rw).header.lookup key
      = rw.header.lookup key := by
  induction l generalizing rw with
  | nil => rfl
  | cons e t ih =>
    rw [List.foldl_cons, ih (fun x hx => hk x (List.mem_cons_of_mem _ hx))]
    have hne : key ≠ CanonicalMIMEHeaderKey e.1 :=
      fun h => hk e (List.mem_cons_self _ _) h.symm
    simp [ResponseWriter.HeaderSet, Header.Set, AList.lookup_insert_ne hne]

theorem copyHeaders_lookup (rh : Header) (rw : ResponseWriter) (key : String)
    (hk : ∀ e ∈ rh.entries, CanonicalMIMEHeaderKey e.1 ≠ key) :
    (copyHeaders rh rw).header.lookup key = rw.header.lookup key :=
  headerSet_fold_lookup (Header.Get rh) key rh.entries hk rw

theorem responseStart_lookup (rw : ResponseWriter) (resp : AuthorizeResponder) (key : String)
    (hc : key ≠ "Cache-Control") (hp : key ≠ "Pragma") :
    (responseStart rw resp).header.lookup key = (copyHeaders resp.Header rw).header.lookup key := by
  simp [responseStart, ResponseWriter.HeaderSet, Header.Set, canonical_cacheControl,
    canonical_pragma, AList.lookup_insert_ne hc, AList.lookup_insert_ne hp]

/-- C19, counterexample: the mode `web_message`, which the handler does not
list, and a success payload whose custom headers carry `Location` and
`Content-Type`: `WriteAuthorizeResponse` sets both while merging the custom
headers. -/
theorem extension_delivery_counterexample :
    sampleFosite.handlerModes.contains (.Ext "web_message") = false
    ∧ (WriteAuthorizeResponse sampleNetURL sampleKit sampleAmbient sampleFosite ⟨∅, []⟩
        (sampleRequester (.Ext "web_message")) redirectingResponder).header.lookup "Location"
      = some ["https://evil.example/"]
    ∧ (WriteAuthorizeResponse sampleNetURL sampleKit sampleAmbient sampleFosite ⟨∅, []⟩
        (sampleRequester (.Ext "web_message")) redirectingResponder).header.lookup
          "Content-Type"
      = some ["text/plain"]
    ∧ (WriteAuthorizeResponse sampleNetURL sampleKit sampleAmbient sampleFosite ⟨∅, []⟩
        (sampleRequester (.Ext "web_message")) redirectingResponder).log
      = [ .headerSet "Content-Type" "text/plain",
          .headerSet "Location" "https://evil.example/",
          .headerSet "Cache-Control" "no-store", .headerSet "Pragma" "no-cache" ] :=
  ⟨rfl, rfl, rfl, rfl⟩

/-- C19, amended: for a requested mode that is none of the eight built-in ones,
on a fresh log. When the handler does not list it, both write paths (valid
target) write no status and no body and do not call the handler.
`WriteAuthorizeError` performs only the `Set` of the two cache headers, so it
sets no `Location` and no `Content-Type`. `WriteAuthorizeResponse` performs
only the `Set` of each custom header of the payload and of the two cache
headers: it sets `Location` or `Content-Type` only if the custom headers
carry them, and leaves them as the writer had them otherwise. When the
handler lists the mode, the one further operation is the call of its write
operation, with the original request and the original payload (or the
original error). -/
theorem extension_delivery (nu : NetURL) (ek : ErrorKit) (amb : Ambient) (f : Fosite)
    (h0 : Header) (ar : AuthorizeRequester) (resp : AuthorizeResponder) (err : GoError)
    (tag : String) (hmode : ar.ResponseMode = .Ext tag)
    (hvalid : ar.IsRedirectURIValid = true) :
    (f.handlerModes.contains (.Ext tag) = false →
      WriteAuthorizeResponse nu ek amb f ⟨h0, []⟩ ar resp = responseStart ⟨h0, []⟩ resp
      ∧ (WriteAuthorizeResponse nu ek amb f ⟨h0, []⟩ ar resp).log
          = customHeaderSets resp.Header
            ++ [.headerSet "Cache-Control" "no-store", .headerSet "Pragma" "no-cache"]
      ∧ statusCodes (WriteAuthorizeResponse nu ek amb f ⟨h0, []⟩ ar resp).log = []
      ∧ bodies (WriteAuthorizeResponse nu ek amb f ⟨h0, []⟩ ar resp).log = []
      ∧ (WriteAuthorizeResponse nu ek amb f ⟨h0, []⟩ ar resp).log.filter Event.isHandler = []
      ∧ (WriteAuthorizeError nu ek amb f ⟨h0, []⟩ ar err).log
          = [.headerSet "Cache-Control" "no-store", .headerSet "Pragma" "no-cache"]
      ∧ (WriteAuthorizeError nu ek amb f ⟨h0, []⟩ ar err).header.lookup "Location"
          = h0.lookup "Location"
      ∧ (WriteAuthorizeError nu ek amb f ⟨h0, []⟩ ar err).header.lookup "Content-Type"
          = h0.lookup "Content-Type"
      ∧ (WriteAuthorizeResponse nu ek amb f ⟨h0, []⟩ ar resp).header.lookup "Location"
          = (copyHeaders resp.Header ⟨h0, []⟩).header.lookup "Location"
      ∧ (WriteAuthorizeResponse nu ek amb f ⟨h0, []⟩ ar resp).header.lookup "Content-Type"
          = (copyHeaders resp.Header ⟨h0, []⟩).header.lookup "Content-Type"
      ∧ ((∀ e ∈ resp.Header.entries, CanonicalMIMEHeaderKey e.1 ≠ "Location") →
          (WriteAuthorizeResponse nu ek amb f ⟨h0, []⟩ ar resp).header.lookup "Location"
              = h0.lookup "Location"
            ∧ (WriteAuthorizeResponse nu ek amb f ⟨h0, []⟩ ar resp).log.filter
                Event.setsLocation = [])
      ∧ ((∀ e ∈ resp.Header.entries, CanonicalMIMEHeaderKey e.1 ≠ "Content-Type") →
          (WriteAuthorizeResponse nu ek amb f ⟨h0, []⟩ ar resp).header.lookup "Content-Type"
            = h0.lookup "Content-Type"))
    ∧ (f.handlerModes.contains (.Ext tag) = true →
      (WriteAuthorizeResponse nu ek amb f ⟨h0, []⟩ ar resp).log
          = customHeaderSets resp.Header
            ++ [.headerSet "Cache-Control" "no-store", .headerSet "Pragma" "no-cache",
                .handlerWriteResponse ar resp
                  (WriteAuthorizeResponse nu ek amb f ⟨h0, []⟩ ar resp).header]
      ∧ (WriteAuthorizeResponse nu ek amb f ⟨h0, []⟩ ar resp).log.filter Event.isHandler
          = [.handlerWriteResponse ar resp
              (WriteAuthorizeResponse nu ek amb f ⟨h0, []⟩ ar resp).header]
      ∧ (WriteAuthorizeError nu ek amb f ⟨h0, []⟩ ar err).log
          = [.headerSet "Cache-Control" "no-store", .headerSet "Pragma" "no-cache",
              .handlerWriteError ar err
                (WriteAuthorizeError nu ek amb f ⟨h0, []⟩ ar err).header]) := by
  have hr : deliveryResponse f (resolveModeResponse ar.ResponseMode ar.ResponseTypes).1
      = if f.handlerModes.contains (.Ext tag) then .handler else .nothing := by
    rw [hmode]
    rfl
  have he : deliveryError f (resolveModeError ar.ResponseMode ar.ResponseTypes).1
      ar.ResponseMode = if f.handlerModes.contains (.Ext tag) then .handler else .nothing := by
    rw [hmode]
    rfl
  have hq := responseStart_quiet h0 resp
  constructor
  · intro hno
    have hrun : WriteAuthorizeResponse nu ek amb f ⟨h0, []⟩ ar resp
        = responseStart ⟨h0, []⟩ resp := by
      rw [response_run, hr, hno]
      rfl
    have hrunE : WriteAuthorizeError nu ek amb f ⟨h0, []⟩ ar err = errorStart ⟨h0, []⟩ := by
      rw [error_run nu ek amb f _ ar err hvalid, he, hno]
      rfl
    refine ⟨hrun, ?_, ?_, ?_, ?_, ?_, ?_, ?_, ?_, ?_, ?_, ?_⟩
    · rw [hrun, responseStart_log]
    · rw [hrun]; exact hq.1
    · rw [hrun]; exact hq.2
    · rw [hrun, responseStart_log, List.filter_append, customHeaderSets_handler]
      rfl
    · rw [hrunE]; rfl
    · rw [hrunE]
      simp [errorStart, ResponseWriter.HeaderSet, Header.Set, canonical_cacheControl,
        canonical_pragma, AList.lookup_insert_ne]
    · rw [hrunE]
      simp [errorStart, ResponseWriter.HeaderSet, Header.Set, canonical_cacheControl,
        canonical_pragma, AList.lookup_insert_ne]
    · rw [hrun]
      exact responseStart_lookup _ resp "Location" (by decide) (by decide)
    · rw [hrun]
      exact responseStart_lookup _ resp "Content-Type" (by decide) (by decide)
    · intro hk
      constructor
      · rw [hrun, responseStart_lookup _ resp "Location" (by decide) (by decide),
          copyHeaders_lookup resp.Header _ "Location" hk]
      · rw [hrun, responseStart_log, List.filter_append, customHeaderSets_location _ hk]
        rfl
    · intro hk
      rw [hrun, responseStart_lookup _ resp "Content-Type" (by decide) (by decide),
        copyHeaders_lookup resp.Header _ "Content-Type" hk]
  · intro hyes
    have hrun : WriteAuthorizeResponse nu ek amb f ⟨h0, []⟩ ar resp
        = (responseStart ⟨h0, []⟩ resp).record
            (.handlerWriteResponse ar resp (responseStart ⟨h0, []⟩ resp).header) := by
      rw [response_run, hr, hyes]
      rfl
    have hrunE : WriteAuthorizeError nu ek amb f ⟨h0, []⟩ ar err
        = (errorStart ⟨h0, []⟩).record
            (.handlerWriteError ar err (errorStart ⟨h0, []⟩).header) := by
      rw [error_run nu ek amb f _ ar err hvalid, he, hyes]
      rfl
    refine ⟨?_, ?_, ?_⟩
    · rw [hrun]
      simp [ResponseWriter.record, responseStart_log]
    · rw [hrun]
      simp only [ResponseWriter.record, responseStart_log, List.filter_append,
        customHeaderSets_handler]
      rfl
    · rw [hrunE]
      rfl

/-- C19, witness: the amended statement at the mode `web_message`, on the
error path with a handler that does not list it and on the success path with
one that does. -/
theorem extension_delivery_witness :
    (sampleRequester (.Ext "web_message")).IsRedirectURIValid = true
    ∧ (WriteAuthorizeError sampleNetURL sampleKit sampleAmbient sampleFosite ⟨∅, []⟩
        (sampleRequester (.Ext "web_message")) (.rfc invalidRequest)).log
      = [.headerSet "Cache-Control" "no-store", .headerSet "Pragma" "no-cache"]
    ∧ (WriteAuthorizeResponse sampleNetURL sampleKit sampleAmbient extendedFosite ⟨∅, []⟩
        (sampleRequester (.Ext "web_message")) sampleResponder).log.filter Event.isHandler
      = [.handlerWriteResponse (sampleRequester (.Ext "web_message")) sampleResponder
          (WriteAuthorizeResponse sampleNetURL sampleKit sampleAmbient extendedFosite ⟨∅, []⟩
            (sampleRequester (.Ext "web_message")) sampleResponder).header] :=
  ⟨rfl,
    ((extension_delivery sampleNetURL sampleKit sampleAmbient sampleFosite ∅
      (sampleRequester (.Ext "web_message")) sampleResponder (.rfc invalidRequest)
      "web_message" rfl rfl).1 rfl).2.2.2.2.2.1,
    ((extension_delivery sampleNetURL sampleKit sampleAmbient extendedFosite ∅
      (sampleRequester (.Ext "web_message")) sampleResponder (.rfc invalidRequest)
      "web_message" rfl rfl).2 rfl).2.1⟩

/-! ## C20: `FromMap` keeps the typed fields it is not given -/

/-- C20: for every receiver `c` and every mapping `m`: if `m` lacks `jti` or
holds under it a value that is not a string, `JTI` is what it was; likewise
`Issuer` for `iss`; `Audience` for `aud` and a value that is neither a string
nor a list of strings; `IssuedAt` and `ExpiresAt` for `iat` and `exp` and a
value `toTime` does not accept (it answers the default it is given: so for a
list of strings and for a value of any other type). The rejected value is
not kept: `Extra` holds nothing under the five keys. In particular `FromMap`
of the empty mapping changes nothing but `Extra`. -/
theorem fromMap_keeps_fields (c : JARMClaims) (m : MapClaims) :
    ((m.lookup "jti" = none ∨ ∃ v, m.lookup "jti" = some v ∧ ∀ s, v ≠ .str s) →
      (c.FromMap m).JTI = c.JTI)
    ∧ ((m.lookup "iss" = none ∨ ∃ v, m.lookup "iss" = some v ∧ ∀ s, v ≠ .str s) →
      (c.FromMap m).Issuer = c.Issuer)
    ∧ ((m.lookup "aud" = none
        ∨ ∃ v, m.lookup "aud" = some v ∧ (∀ s, v ≠ .str s) ∧ ∀ l, v ≠ .strs l) →
      (c.FromMap m).Audience = c.Audience)
    ∧ ((m.lookup "iat" = none ∨ ∃ v, m.lookup "iat" = some v ∧ ∀ d, toTime v d = d) →
      (c.FromMap m).IssuedAt = c.IssuedAt)
    ∧ ((m.lookup "exp" = none ∨ ∃ v, m.lookup "exp" = some v ∧ ∀ d, toTime v d = d) →
      (c.FromMap m).ExpiresAt = c.ExpiresAt)
    ∧ (∀ (l : List String) (rendering : String) (d : Time),
        toTime (.strs l) d = d ∧ toTime (.other rendering) d = d)
    ∧ (∀ k, reservedKey k = true → ((c.FromMap m).Extra.getD ∅).lookup k = none)
    ∧ c.FromMap ∅ = { c with Extra := some ∅ } := by
  refine ⟨?_, ?_, ?_, ?_, ?_, fun _ _ _ => ⟨rfl, rfl⟩, ?_, rfl⟩
  · rintro (h | ⟨v, h, hv⟩)
    · rw [fromMap_JTI, h]
    · rw [fromMap_JTI, h]
      cases v with
      | str s => exact absurd rfl (hv s)
      | strs l => rfl
      | int64 i => rfl
      | float64 q => rfl
      | other r => rfl
  · rintro (h | ⟨v, h, hv⟩)
    · rw [fromMap_Issuer, h]
    · rw [fromMap_Issuer, h]
      cases v with
      | str s => exact absurd rfl (hv s)
      | strs l => rfl
      | int64 i => rfl
      | float64 q => rfl
      | other r => rfl
  · rintro (h | ⟨v, h, hv1, hv2⟩)
    · rw [fromMap_Audience, h]
    · rw [fromMap_Audience, h]
      cases v with
      | str s => exact absurd rfl (hv1 s)
      | strs l => exact absurd rfl (hv2 l)
      | int64 i => rfl
      | float64 q => rfl
      | other r => rfl
  · rintro (h | ⟨v, h, hv⟩)
    · rw [fromMap_IssuedAt, h]
    · rw [fromMap_IssuedAt, h]
      exact hv _
  · rintro (h | ⟨v, h, hv⟩)
    · rw [fromMap_ExpiresAt, h]
    · rw [fromMap_ExpiresAt, h]
      exact hv _
  · intro k hk
    rw [fromMap_Extra, hk]
    rfl

/-- C20, witness: a populated claims value given a mapping whose five
well-known keys all hold values of a rejected type: the typed fields stay,
the rejected values are in no field and not in `Extra`, the ordinary key is. -/
theorem fromMap_keeps_fields_witness :
    rejectedMapping.lookup "jti" = some (.int64 7)
    ∧ (populatedClaims.FromMap rejectedMapping).JTI = "id-1"
    ∧ rejectedMapping.lookup "iat" = some (.strs ["now"])
    ∧ (populatedClaims.FromMap rejectedMapping).IssuedAt = Time.ofUnix 1700000000
    ∧ ((populatedClaims.FromMap rejectedMapping).Extra.getD ∅).lookup "jti" = none
    ∧ ((populatedClaims.FromMap rejectedMapping).Extra.getD ∅).lookup "code"
        = some (.str "abc") :=
  ⟨rfl,
    (fromMap_keeps_fields populatedClaims rejectedMapping).1
      (Or.inr ⟨.int64 7, rfl, fun _ h => Value.noConfusion h⟩),
    rfl,
    (fromMap_keeps_fields populatedClaims rejectedMapping).2.2.2.1
      (Or.inr ⟨.strs ["now"], rfl, fun _ => rfl⟩),
    (fromMap_keeps_fields populatedClaims rejectedMapping).2.2.2.2.2.2.1 "jti" rfl,
    rfl⟩

end FositeDelivery
